import Mathlib

/-!
Verification development for the agentic Facebook-ads analyst pipeline.

The Python sources are shallowly embedded:
* strings are `List Char` (Python `str`), floats are `ℚ` except where a
  division can produce IEEE non-finite values, which are modelled by `FVal`;
* the JSON extractor `LLMClient.generate_json` (src/agents/base.py) is
  embedded over an executable JSON parser and Python-`str.split` semantics;
* the dataset engine `DataLoader` (src/utils/data.py), the five agents and
  the orchestrator (src/orchestrator/runner.py) are embedded as pure
  functions over an environment recording dataset availability and the raw
  text returned by the generation service for each call.
-/

/-! ## Characters and Python string helpers -/

/-- The double-quote character. -/
def qC : Char := Char.ofNat 34

/-- The backslash character. -/
def bsC : Char := Char.ofNat 92

/-- The backtick character. -/
def btC : Char := Char.ofNat 96

/-- The opening curly-brace character. -/
def lcbC : Char := Char.ofNat 123

/-- The closing curly-brace character. -/
def rcbC : Char := Char.ofNat 125

/-- Newline. -/
def nlC : Char := Char.ofNat 10

/-- Python `str.isspace`-relevant whitespace for `str.strip` / JSON. -/
def isWSChar (c : Char) : Bool :=
  c == ' ' || c == nlC || c == Char.ofNat 9 || c == Char.ofNat 13

/-- `leadsWith pat s` is true when `pat` is an initial segment of `s`. -/
def leadsWith : List Char → List Char → Bool
  | [], _ => true
  | _ :: _, [] => false
  | a :: as, b :: bs => a == b && leadsWith as bs

/-- Fuel-driven worker for Python `str.split(sep)` with `sep = c0 :: r`.
The fuel is the length of the input, which is always sufficient. -/
def pySplitGo (c0 : Char) (r : List Char) : Nat → List Char → List (List Char)
  | _, [] => [[]]
  | 0, s => [s]
  | Nat.succ f, c :: cs =>
    if leadsWith (c0 :: r) (c :: cs) then
      [] :: pySplitGo c0 r f (cs.drop r.length)
    else
      match pySplitGo c0 r f cs with
      | [] => [[c]]
      | h :: t => (c :: h) :: t

/-- Python `s.split(sep)` for a non-empty separator (both code sites pass
non-empty literal separators). -/
def pySplit (sep s : List Char) : List (List Char) :=
  match sep with
  | [] => [s]
  | c0 :: r => pySplitGo c0 r s.length s

/-- Python `sep in s` (substring test), expressed through `split` exactly as
membership of a separator occurrence. -/
def hasSubB (sep s : List Char) : Bool :=
  match pySplit sep s with
  | _ :: _ :: _ => true
  | _ => false

/-- Python list indexing with an out-of-range default (the source indexes
only after an `in` guard, so the default is never hit on guarded paths). -/
def pyGet (l : List (List Char)) (i : Nat) : List Char :=
  l.getD i []

/-- Python `str.strip()` (default whitespace strip at both ends). -/
def pyStrip (s : List Char) : List Char :=
  ((s.dropWhile isWSChar).reverse.dropWhile isWSChar).reverse

/-- Skip leading whitespace (JSON lexing). -/
def skipWS (s : List Char) : List Char := s.dropWhile isWSChar

/-! ## JSON values

`json.loads` produces nested dicts/lists/strings/numbers/booleans/null.
The value type is a mutual inductive so that all functions over it are
structurally recursive (and hence kernel-reducible). -/

mutual

inductive Json where
  | str : String → Json
  | num : ℚ → Json
  | bool : Bool → Json
  | null : Json
  | arr : JsonItems → Json
  | obj : JsonFields → Json

inductive JsonItems where
  | nil : JsonItems
  | cons : Json → JsonItems → JsonItems

inductive JsonFields where
  | nil : JsonFields
  | cons : String → Json → JsonFields → JsonFields

end

deriving instance DecidableEq for Json

deriving instance DecidableEq for Except

/-- Build `JsonItems` from a list. -/
def jItems : List Json → JsonItems
  | [] => .nil
  | x :: xs => .cons x (jItems xs)

/-- Build `JsonFields` from an association list. -/
def jFields : List (String × Json) → JsonFields
  | [] => .nil
  | (k, v) :: xs => .cons k v (jFields xs)

/-- Object constructor from an association list. -/
def jObj (l : List (String × Json)) : Json := .obj (jFields l)

/-- Array constructor from a list. -/
def jArr (l : List Json) : Json := .arr (jItems l)

/-- `JsonItems` back to a list. -/
def itemsToList : JsonItems → List Json
  | .nil => []
  | .cons x xs => x :: itemsToList xs

/-- Python `dict.get` over a JSON object: first binding of the key. -/
def fieldsGet : JsonFields → String → Option Json
  | .nil, _ => none
  | .cons k v rest, key => if k = key then some v else fieldsGet rest key

/-- Python `payload.get(key)`; `none` when the payload is not a dict or the
key is absent. -/
def jGet (j : Json) (key : String) : Option Json :=
  match j with
  | .obj fs => fieldsGet fs key
  | _ => none

/-- Python `payload.get(key, default)`. -/
def jGetD (j : Json) (key : String) (d : Json) : Json :=
  (jGet j key).getD d

/-- Python `payload.get(key, [])` read as a list of JSON values. -/
def jGetList (j : Json) (key : String) : List Json :=
  match jGet j key with
  | some (.arr items) => itemsToList items
  | _ => []

/-- A JSON payload is a non-empty dict. -/
def objNonEmptyB : Json → Bool
  | .obj (.cons _ _ _) => true
  | _ => false

/-! ## JSON serialization (canonical rendering of a structured record) -/

/-- Decimal digit characters of a natural number (most significant first). -/
def natDigitsChars (n : Nat) : List Char :=
  ((Nat.digits 10 n).map Nat.digitChar).reverse

/-- Canonical rendering of a JSON number (the well-formedness predicate
below restricts records to non-negative integer numbers). -/
def serNum (q : ℚ) : List Char :=
  if q = 0 then ['0'] else natDigitsChars q.num.toNat

/-- Canonical rendering of a JSON string. -/
def serStr (s : String) : List Char := qC :: s.data ++ [qC]

mutual

/-- Canonical serialized text of a JSON value. -/
def serVal : Json → List Char
  | .str s => serStr s
  | .num q => serNum q
  | .bool b => if b then ['t', 'r', 'u', 'e'] else ['f', 'a', 'l', 's', 'e']
  | .null => ['n', 'u', 'l', 'l']
  | .arr items => '[' :: serItemsChars items ++ [']']
  | .obj fields => lcbC :: serFieldsChars fields ++ [rcbC]

/-- Serialized array items, comma separated. -/
def serItemsChars : JsonItems → List Char
  | .nil => []
  | .cons x .nil => serVal x
  | .cons x (.cons y ys) => serVal x ++ ',' :: serItemsChars (.cons y ys)

/-- Serialized object members, comma separated. -/
def serFieldsChars : JsonFields → List Char
  | .nil => []
  | .cons k v .nil => serStr k ++ ':' :: serVal v
  | .cons k v (.cons k2 w ws) =>
    serStr k ++ ':' :: serVal v ++ ',' :: serFieldsChars (.cons k2 w ws)

end

/-- A string is representable without escaping: no quote, no backslash and
no backtick (the backtick exclusion keeps serialized records clear of the
markdown fence markers the extractor scans for). -/
def wfStr (l : List Char) : Bool :=
  l.all fun c => !(c == qC) && !(c == bsC) && !(c == btC)

mutual

/-- Well-formed record: escape-free strings and non-negative integer
numbers, so the canonical rendering round-trips through the parser. -/
def wfVal : Json → Bool
  | .str s => wfStr s.data
  | .num q => q.den == 1 && decide (0 ≤ q.num)
  | .bool _ => true
  | .null => true
  | .arr items => wfItems items
  | .obj fields => wfFields fields

/-- Well-formedness of array items. -/
def wfItems : JsonItems → Bool
  | .nil => true
  | .cons x xs => wfVal x && wfItems xs

/-- Well-formedness of object members. -/
def wfFields : JsonFields → Bool
  | .nil => true
  | .cons k v vs => wfStr k.data && wfVal v && wfFields vs

end

/-! ## JSON parsing (`json.loads` on the escape-free fragment) -/

/-- Read a string body up to the closing quote. -/
def parseStrBody : List Char → Option (List Char × List Char)
  | [] => none
  | c :: cs =>
    if c = qC then some ([], cs)
    else (parseStrBody cs).map fun p => (c :: p.1, p.2)

/-- Numeric value of a most-significant-first list of digit characters. -/
def digitsToNat (ds : List Char) : Nat :=
  ds.foldl (fun a c => 10 * a + (c.toNat - 48)) 0

/-- Greedy parse of a non-negative integer literal. -/
def parseNumGreedy (s : List Char) : Option (ℚ × List Char) :=
  match s.takeWhile Char.isDigit with
  | [] => none
  | ds => some ((digitsToNat ds : ℚ), s.dropWhile Char.isDigit)

mutual

/-- Fuel-driven recursive-descent parse of one JSON value. -/
def parseVal : Nat → List Char → Option (Json × List Char)
  | 0, _ => none
  | Nat.succ f, s =>
    match s with
    | [] => none
    | c :: cs =>
      if c = qC then
        (parseStrBody cs).map fun p => (Json.str (String.mk p.1), p.2)
      else if c = lcbC then
        match skipWS cs with
        | [] => none
        | d :: ds =>
          if d = rcbC then some (Json.obj .nil, ds)
          else (parseFieldsTail f (d :: ds)).map fun p => (Json.obj p.1, p.2)
      else if c = '[' then
        match skipWS cs with
        | [] => none
        | d :: ds =>
          if d = ']' then some (Json.arr .nil, ds)
          else (parseItemsTail f (d :: ds)).map fun p => (Json.arr p.1, p.2)
      else if c = 't' then
        if leadsWith ['r', 'u', 'e'] cs then some (Json.bool true, cs.drop 3) else none
      else if c = 'f' then
        if leadsWith ['a', 'l', 's', 'e'] cs then some (Json.bool false, cs.drop 4) else none
      else if c = 'n' then
        if leadsWith ['u', 'l', 'l'] cs then some (Json.null, cs.drop 3) else none
      else if c.isDigit then
        (parseNumGreedy (c :: cs)).map fun p => (Json.num p.1, p.2)
      else none

/-- Parse one or more array items followed by the closing bracket. -/
def parseItemsTail : Nat → List Char → Option (JsonItems × List Char)
  | 0, _ => none
  | Nat.succ f, s =>
    match parseVal f s with
    | none => none
    | some (j, r) =>
      match skipWS r with
      | [] => none
      | c :: cs =>
        if c = ',' then
          (parseItemsTail f (skipWS cs)).map fun p => (JsonItems.cons j p.1, p.2)
        else if c = ']' then some (JsonItems.cons j .nil, cs)
        else none

/-- Parse one or more object members followed by the closing brace. -/
def parseFieldsTail : Nat → List Char → Option (JsonFields × List Char)
  | 0, _ => none
  | Nat.succ f, s =>
    match s with
    | [] => none
    | c :: cs =>
      if c = qC then
        match parseStrBody cs with
        | none => none
        | some (k, r) =>
          match skipWS r with
          | [] => none
          | d :: ds =>
            if d = ':' then
              match parseVal f (skipWS ds) with
              | none => none
              | some (v, r2) =>
                match skipWS r2 with
                | [] => none
                | e :: es =>
                  if e = ',' then
                    (parseFieldsTail f (skipWS es)).map fun p =>
                      (JsonFields.cons (String.mk k) v p.1, p.2)
                  else if e = rcbC then some (JsonFields.cons (String.mk k) v .nil, es)
                  else none
            else none
      else none

end

/-- `json.loads`: parse a whole document, allowing surrounding whitespace
and requiring the input to be exhausted; `none` models `JSONDecodeError`. -/
def parseJson (s : List Char) : Option Json :=
  match parseVal (2 * s.length + 2) (skipWS s) with
  | some (j, r) => if skipWS r = [] then some j else none
  | none => none

/-! ## The structured extractor (`LLMClient.generate_json`, src/agents/base.py) -/

/-- The markdown fence marker (three backticks). -/
def fenceM : List Char := [btC, btC, btC]

/-- The labeled fence marker. -/
def fenceJsonM : List Char := [btC, btC, btC, 'j', 's', 'o', 'n']

/-- Failure modes of JSON extraction:
* `decodeError` models the `json.JSONDecodeError` escaping from the code's
  fenced-block `json.loads` calls (it carries no input preview);
* `noStructure` models the `ValueError` raised when no fence marker is
  present, carrying `response[:200]`. -/
inductive ExtractError where
  | decodeError : ExtractError
  | noStructure : List Char → ExtractError
deriving DecidableEq

/-- `LLMClient.generate_json` after a successful `generate` call: direct
parse, then labeled fenced block, then any fenced block, else `ValueError`
with a 200-character preview. -/
def generate_json (response : List Char) : Except ExtractError Json :=
  match parseJson response with
  | some j => .ok j
  | none =>
    if hasSubB fenceJsonM response then
      match parseJson (pyStrip (pyGet (pySplit fenceM (pyGet (pySplit fenceJsonM response) 1)) 0)) with
      | some j => .ok j
      | none => .error .decodeError
    else if hasSubB fenceM response then
      match parseJson (pyStrip (pyGet (pySplit fenceM (pyGet (pySplit fenceM response) 1)) 0)) with
      | some j => .ok j
      | none => .error .decodeError
    else .error (.noStructure (response.take 200))

/-- Result of one generation-service call: the raw text, or the message of
the exception the service raised. -/
def GenOutcome := Except String (List Char)

/-- `BaseAgent.think_json`: `generate` (whose failures are re-raised as
`RuntimeError("LLM generation failed: ...")`) composed with
`generate_json`; every failure surfaces as an exception message. -/
def think_json (gen : GenOutcome) : Except String Json :=
  match gen with
  | .error e => .error ("LLM generation failed: " ++ e)
  | .ok text =>
    match generate_json text with
    | .ok j => .ok j
    | .error .decodeError => .error "JSONDecodeError"
    | .error (.noStructure p) => .error ("Could not parse JSON from response: " ++ String.mk p)

/-! ## Dataset analysis engine (`DataLoader` / `DataSummary`, src/utils/data.py)

One CSV row of the advertising dataset. Floats are rationals; dates are
already-normalized comparable naturals (`pd.to_datetime` yields a totally
ordered type, which is all the code uses). -/

structure AdRecord where
  campaign_name : String
  adset_name : String
  creative_type : String
  audience_type : String
  country : String
  date : Nat
  spend : ℚ
  impressions : Nat
  clicks : Nat
  purchases : Nat
  revenue : ℚ
  ctr : ℚ
  roas : ℚ
  creative_message : String
deriving DecidableEq, Repr

/-- Value of a pandas float column entry: finite, or the non-finite values
that division by zero produces. -/
inductive FVal where
  | fin : ℚ → FVal
  | inf : FVal
  | ninf : FVal
  | nan : FVal
deriving DecidableEq, Repr

/-- numpy/pandas elementwise division: finite quotient for a non-zero
denominator, otherwise ±infinity or NaN — never an exception and never a
sentinel. -/
def pandasDiv (a b : ℚ) : FVal :=
  if b ≠ 0 then .fin (a / b)
  else if 0 < a then .inf
  else if a < 0 then .ninf
  else .nan

/-- pandas `Series.mean()` (NaN on an empty frame). -/
def fmeanQ (l : List ℚ) : FVal := pandasDiv l.sum (l.length : ℚ)

/-- Stable insertion of a record into a date-sorted list (new record goes
after existing records of the same date, as `sort_values` is stable). -/
def insByDate (r : AdRecord) : List AdRecord → List AdRecord
  | [] => [r]
  | x :: xs => if x.date ≤ r.date then x :: insByDate r xs else r :: x :: xs

/-- `df.sort_values('date')` (stable ascending sort). -/
def sortByDate (df : List AdRecord) : List AdRecord :=
  df.foldl (fun acc r => insByDate r acc) []

/-- First-occurrence deduplication worker (pandas `unique` /
`drop_duplicates` keep the first occurrence). -/
def pyDedupGo {α : Type} [DecidableEq α] (seen : List α) : List α → List α
  | [] => []
  | a :: l => if a ∈ seen then pyDedupGo seen l else a :: pyDedupGo (a :: seen) l

/-- First-occurrence deduplication. -/
def pyDedup {α : Type} [DecidableEq α] (l : List α) : List α := pyDedupGo [] l

/-- `DataLoader.load`: the CSV rows sorted ascending by date, truncated to
the first `sample_size` rows when `sample_mode` is set. (The
missing-dataset branch raises and is modelled at the agent level.) -/
def loaderLoad (rows : List AdRecord) (sample_mode : Bool) (sample_size : Nat) : List AdRecord :=
  let df := sortByDate rows
  if sample_mode then df.take sample_size else df

/-- `DataLoader.filter_low_ctr`: rows with click-through-rate strictly
below the threshold, in order. -/
def filter_low_ctr (df : List AdRecord) (threshold : ℚ) : List AdRecord :=
  df.filter fun r => r.ctr < threshold

/-- One row of `DataLoader.get_roas_timeline()`. -/
structure TimelineEntry where
  date : Nat
  spend : ℚ
  revenue : ℚ
  impressions : Nat
  clicks : Nat
  roas : FVal
  ctr : FVal
deriving DecidableEq, Repr

/-- Insertion into a sorted list of dates. -/
def insDate (d : Nat) : List Nat → List Nat
  | [] => [d]
  | x :: xs => if d ≤ x then d :: x :: xs else x :: insDate d xs

/-- Distinct dates in ascending order (`groupby('date')` sorts its keys). -/
def uniqueDates (df : List AdRecord) : List Nat :=
  (pyDedup (df.map (·.date))).foldr insDate []

/-- `DataLoader.get_roas_timeline`: group by date, sum spend / revenue /
impressions / clicks, then divide the summed columns. -/
def get_roas_timeline (df : List AdRecord) : List TimelineEntry :=
  (uniqueDates df).map fun d =>
    let g := df.filter fun r => r.date = d
    let spendSum := (g.map (·.spend)).sum
    let revenueSum := (g.map (·.revenue)).sum
    let impSum : Nat := (g.map (·.impressions)).sum
    let clickSum : Nat := (g.map (·.clicks)).sum
    { date := d, spend := spendSum, revenue := revenueSum,
      impressions := impSum, clicks := clickSum,
      roas := pandasDiv revenueSum spendSum,
      ctr := pandasDiv (clickSum : ℚ) (impSum : ℚ) }

/-- Per-group aggregate of `DataLoader.get_creative_performance` and
`DataAgent._analyze_campaign_performance`. -/
structure PerfAgg where
  avg_ctr : FVal
  avg_roas : FVal
  count : Nat
deriving DecidableEq, Repr

/-- `DataLoader.get_creative_performance`: mean ctr/roas and count per
creative type, keyed in first-occurrence order. -/
def get_creative_performance (df : List AdRecord) : List (String × PerfAgg) :=
  (pyDedup (df.map (·.creative_type))).map fun ct =>
    let sub := df.filter fun r => r.creative_type = ct
    (ct, { avg_ctr := fmeanQ (sub.map (·.ctr)),
           avg_roas := fmeanQ (sub.map (·.roas)),
           count := sub.length })

/-- Campaign-level aggregate of `DataAgent._analyze_campaign_performance`. -/
structure CampAgg where
  avg_roas : FVal
  avg_ctr : FVal
  total_spend : ℚ
  record_count : Nat
deriving DecidableEq, Repr

/-- `DataAgent._analyze_campaign_performance` over a loaded frame. -/
def analyzeCampaignPerformance (df : List AdRecord) : List (String × CampAgg) :=
  (pyDedup (df.map (·.campaign_name))).map fun cn =>
    let sub := df.filter fun r => r.campaign_name = cn
    (cn, { avg_roas := fmeanQ (sub.map (·.roas)),
           avg_ctr := fmeanQ (sub.map (·.ctr)),
           total_spend := (sub.map (·.spend)).sum,
           record_count := sub.length })

/-- `DataSummary.generate_summary` (src/utils/data.py). -/
structure SummaryM where
  row_count : Nat
  date_start : Option Nat
  date_end : Option Nat
  campaigns : List String
  adsets : List String
  creative_types : List String
  audience_types : List String
  countries : List String
  total_spend : ℚ
  total_impressions : Nat
  total_clicks : Nat
  total_purchases : Nat
  total_revenue : ℚ
  avg_ctr : FVal
  avg_roas : FVal
  min_roas : Option ℚ
  max_roas : Option ℚ
deriving DecidableEq, Repr

/-- Minimum of a rational column. -/
def colMin (l : List ℚ) : Option ℚ := l.foldr (fun q acc => some (match acc with
  | none => q
  | some m => min q m)) none

/-- Maximum of a rational column. -/
def colMax (l : List ℚ) : Option ℚ := l.foldr (fun q acc => some (match acc with
  | none => q
  | some m => max q m)) none

/-- Minimum of the date column. -/
def dateMin (l : List Nat) : Option Nat := l.foldr (fun q acc => some (match acc with
  | none => q
  | some m => min q m)) none

/-- Maximum of the date column. -/
def dateMax (l : List Nat) : Option Nat := l.foldr (fun q acc => some (match acc with
  | none => q
  | some m => max q m)) none

/-- `DataSummary` of a loaded frame. -/
def mkSummary (df : List AdRecord) : SummaryM :=
  { row_count := df.length
    date_start := dateMin (df.map (·.date))
    date_end := dateMax (df.map (·.date))
    campaigns := pyDedup (df.map (·.campaign_name))
    adsets := pyDedup (df.map (·.adset_name))
    creative_types := pyDedup (df.map (·.creative_type))
    audience_types := pyDedup (df.map (·.audience_type))
    countries := pyDedup (df.map (·.country))
    total_spend := (df.map (·.spend)).sum
    total_impressions := (df.map (·.impressions)).sum
    total_clicks := (df.map (·.clicks)).sum
    total_purchases := (df.map (·.purchases)).sum
    total_revenue := (df.map (·.revenue)).sum
    avg_ctr := fmeanQ (df.map (·.ctr))
    avg_roas := fmeanQ (df.map (·.roas))
    min_roas := colMin (df.map (·.roas))
    max_roas := colMax (df.map (·.roas)) }

/-! ## Reasoning agents (src/agents/planner.py, insight_agent.py,
evaluator.py, creative_generator.py, data_agent.py)

Agent payloads produced by the generation service are JSON values; the
hand-authored fallback dicts are transcribed below as JSON constants. -/

/-- `PlannerAgent._create_fallback_plan` (the `context` argument is unused
by the source). -/
def plannerFallbackPlan (task : String) : Json :=
  jObj [
    ("query", .str task),
    ("analysis_type", .str "holistic"),
    ("subtasks", jArr [
      jObj [("id", .str "task_1"), ("title", .str "Load and summarize dataset"),
            ("description", .str "Aggregate performance metrics by campaign, adset, and creative type"),
            ("data_requirements", jArr [.str "campaign_summary", .str "creative_performance", .str "timeline"]),
            ("owner_agent", .str "data_agent")],
      jObj [("id", .str "task_2"), ("title", .str "Generate performance hypotheses"),
            ("description", .str "Create 3-5 testable hypotheses explaining observed patterns"),
            ("data_requirements", jArr [.str "performance_trends", .str "segment_analysis"]),
            ("owner_agent", .str "insight_agent")],
      jObj [("id", .str "task_3"), ("title", .str "Validate hypotheses quantitatively"),
            ("description", .str "Test hypotheses with statistical evidence and assign confidence scores"),
            ("data_requirements", jArr [.str "all_metrics"]),
            ("owner_agent", .str "evaluator")],
      jObj [("id", .str "task_4"), ("title", .str "Generate creative recommendations"),
            ("description", .str "Create new messaging for low-CTR campaigns based on winning patterns"),
            ("data_requirements", jArr [.str "low_ctr_campaigns", .str "high_ctr_examples"]),
            ("owner_agent", .str "creative_generator")]]),
    ("key_metrics", jArr [.str "roas", .str "ctr", .str "spend", .str "revenue", .str "impressions", .str "clicks"]),
    ("success_criteria", jArr [
      .str "Load and summarize complete dataset",
      .str "Generate at least 3 data-grounded hypotheses",
      .str "Validate hypotheses with >0.6 confidence",
      .str "Generate 3-5 creative recommendations per low-CTR campaign"]),
    ("reasoning", .str "Standard analysis pipeline for ad performance diagnosis")]

/-- `InsightAgent._create_fallback_hypotheses` (the `context` argument is
unused by the source). -/
def insightFallbackHypotheses (task : String) : Json :=
  jObj [
    ("query_summary", .str task),
    ("hypotheses", jArr [
      jObj [("id", .str "h1"), ("title", .str "Audience Fatigue"),
            ("description", .str "Repeated exposure to the same creative leads to CTR and ROAS decline over time"),
            ("driver", .str "Audience Fatigue"),
            ("testable_prediction", .str "CTR should decrease over time within same audience-creative pairs; ROAS should drop after initial 7-14 days"),
            ("supporting_evidence", jArr [
              .str "High-performing creatives often show declining CTR patterns",
              .str "Multiple campaigns data available for trend analysis"]),
            ("confidence", .num (75/100)),
            ("confidence_reasoning", .str "Audience fatigue is well-documented in digital advertising; data shows multiple time periods to analyze")],
      jObj [("id", .str "h2"), ("title", .str "Creative Type Performance Variation"),
            ("description", .str "Different creative types (Image, Video, UGC) perform differently due to attention and engagement patterns"),
            ("driver", .str "Creative Decay / Format Effectiveness"),
            ("testable_prediction", .str "Video and UGC should outperform static images in CTR; VID/UGC should show stronger initial performance but faster decay"),
            ("supporting_evidence", jArr [
              .str "Dataset includes multiple creative types",
              .str "Video typically performs better initially in digital ads"]),
            ("confidence", .num (70/100)),
            ("confidence_reasoning", .str "Clear creative type segmentation in data allows validation; format-based performance is predictable")],
      jObj [("id", .str "h3"), ("title", .str "Audience Targeting Mismatch"),
            ("description", .str "Broad audiences underperform compared to Lookalike/Interest audiences due to lower relevance"),
            ("driver", .str "Audience Targeting Quality"),
            ("testable_prediction", .str "Lookalike and interest-based audiences should show higher CTR and ROAS than Broad audiences"),
            ("supporting_evidence", jArr [
              .str "Data includes audience type segmentation",
              .str "Marketing principle: more targeted audiences perform better"]),
            ("confidence", .num (72/100)),
            ("confidence_reasoning", .str "Audience type is directly measurable; industry standard supports hypothesis")],
      jObj [("id", .str "h4"), ("title", .str "Messaging Relevance Impact"),
            ("description", .str "Specific value propositions (functional benefits) outperform generic messaging"),
            ("driver", .str "Message Clarity / Value Proposition"),
            ("testable_prediction", .str "Creatives with specific benefits (e.g., \x27breathable\x27, \x27no ride-up\x27) should show higher CTR than generic value statements"),
            ("supporting_evidence", jArr [
              .str "Creative messages are available for analysis",
              .str "Specific messaging typically performs better in performance marketing"]),
            ("confidence", .num (68/100)),
            ("confidence_reasoning", .str "Requires text analysis of creative messages; messaging impact is well-established in marketing")]]),
    ("priority_ranking", jArr [
      jObj [("hypothesis_id", .str "h1"), ("priority_score", .num (85/100)),
            ("reason", .str "Audience fatigue is primary driver of ROAS decline")],
      jObj [("hypothesis_id", .str "h3"), ("priority_score", .num (75/100)),
            ("reason", .str "Audience quality directly impacts performance")],
      jObj [("hypothesis_id", .str "h2"), ("priority_score", .num (70/100)),
            ("reason", .str "Creative format variation explains CTR differences")],
      jObj [("hypothesis_id", .str "h4"), ("priority_score", .num (65/100)),
            ("reason", .str "Messaging is secondary but actionable factor")]]),
    ("reasoning", .str "Generated template hypotheses based on common ad performance drivers; LLM generation failed")]

/-- One row of `EvaluatorAgent._create_fallback_evaluation`'s loop. -/
def evalFallbackItem (h : Json) : Json :=
  jObj [
    ("hypothesis_id", jGetD h "id" (.str "h_unknown")),
    ("hypothesis_title", jGetD h "title" (.str "Unknown")),
    ("validation_approach", .str "Comparative segment analysis"),
    ("data_evidence", jObj [
      ("primary_metric", jObj [
        ("baseline", .num (15/1000)),
        ("observed", .num (12/1000)),
        ("change_percent", .num (-20)),
        ("statistical_note", .str "Meaningful decline (>5% threshold)")])]),
    ("supporting_metrics", jArr [
      .str "Metric1: 25% decrease aligns with hypothesis",
      .str "Metric2: Pattern consistent across segments"]),
    ("contradicting_metrics", jArr [.str "Some segments show stable performance"]),
    ("confidence_score", jGetD h "confidence" (.num (7/10))),
    ("confidence_reasoning", .str "Evidence supports hypothesis with some caveats; alternative explanations possible"),
    ("validation_status", .str "PARTIALLY_CONFIRMED"),
    ("actionability", .str "Sufficient confidence to recommend testing remediation tactics")]

/-- `EvaluatorAgent._create_fallback_evaluation` over the first three
context hypotheses. -/
def evalFallbackEvaluation (hyps : List Json) : Json :=
  jObj [
    ("evaluation_summary", .str "Multiple hypotheses partially confirmed; recommend prioritized testing"),
    ("hypothesis_evaluations", jArr ((hyps.take 3).map evalFallbackItem)),
    ("top_validated_insights", jArr [
      jObj [("insight", .str "Audience fatigue appears to be primary driver of ROAS decline"),
            ("confidence", .num (72/100)),
            ("impact", .str "Recommend creative refresh and audience expansion strategy")]]),
    ("recommended_actions", jArr [
      .str "Action 1: Increase creative variation frequency to combat audience fatigue",
      .str "Action 2: Expand lookalike audience size and refresh weekly",
      .str "Action 3: Test new creative messaging angles in control groups"]),
    ("evaluation_methodology", .str "Segment comparison with trend analysis; >5% delta threshold applied")]

/-- The four projected columns of a low-CTR campaign row
(`low_ctr[['campaign_name', 'adset_name', 'ctr', 'creative_message']]`). -/
structure LowCtrRec where
  campaign_name : String
  adset_name : String
  ctr : ℚ
  creative_message : String
deriving DecidableEq, Repr

/-- `CreativeGeneratorAgent._create_fallback_creative` for one campaign. -/
def creativeFallback (campaign : LowCtrRec) : Json :=
  jObj [
    ("low_performer_analysis", jObj [
      ("campaign_name", .str campaign.campaign_name),
      ("current_ctr", .num campaign.ctr),
      ("current_messaging", .str campaign.creative_message),
      ("performance_gap", .str "Below average CTR")]),
    ("creative_recommendations", jArr [
      jObj [("id", .str "rec_1"),
            ("headline", .str "Breathable comfort for your active lifestyle — Shop now →"),
            ("creative_angle", .str "Lifestyle positioning with lifestyle benefit"),
            ("value_prop", .str "Comfort and activity compatibility"),
            ("cta", .str "Shop now"),
            ("why_this_works", .str "Combines specific benefit (breathable) with use case (active) and clear CTA"),
            ("predicted_lift", .str "15-25%")],
      jObj [("id", .str "rec_2"),
            ("headline", .str "Limited stock: Best-selling comfort briefs back in store"),
            ("creative_angle", .str "Urgency + social proof"),
            ("value_prop", .str "Scarcity and bestseller status"),
            ("cta", .str "Get yours today"),
            ("why_this_works", .str "Combines urgency (limited stock), social proof (bestselling), and clear CTA"),
            ("predicted_lift", .str "10-20%")],
      jObj [("id", .str "rec_3"),
            ("headline", .str "No ride-up guarantee or your money back — Premium comfort inside"),
            ("creative_angle", .str "Problem-solution with guarantee"),
            ("value_prop", .str "Specific pain point solved + risk reversal"),
            ("cta", .str "Try risk-free"),
            ("why_this_works", .str "Addresses specific pain point (ride-up), adds guarantee for confidence"),
            ("predicted_lift", .str "20-30%")]]),
    ("implementation_priority", jArr [
      jObj [("recommendation_id", .str "rec_3"), ("priority", .str "HIGH")],
      jObj [("recommendation_id", .str "rec_1"), ("priority", .str "MEDIUM")],
      jObj [("recommendation_id", .str "rec_2"), ("priority", .str "MEDIUM")]])]

/-! ## Agent execution (the `execute` methods) -/

/-- The `analysis` dict assembled by `DataAgent._perform_analysis` (each
key optional; the empty dict has every field `none`). -/
structure Analysis where
  campaign_performance : Option (List (String × CampAgg)) := none
  creative_performance : Option (List (String × PerfAgg)) := none
  roas_timeline : Option (List TimelineEntry) := none
  low_ctr_count : Option Nat := none
  low_ctr_campaigns : Option (List LowCtrRec) := none
deriving DecidableEq, Repr

/-- The empty analysis dict. -/
def emptyAnalysis : Analysis := {}

/-- Projection of a dataframe row to the four reported low-CTR columns. -/
def projLowCtr (r : AdRecord) : LowCtrRec :=
  { campaign_name := r.campaign_name, adset_name := r.adset_name,
    ctr := r.ctr, creative_message := r.creative_message }

/-- The body of `DataAgent._perform_analysis` below its guard: the four
requirement-gated analyses over the loaded frame. -/
def analysisBody (df : List AdRecord) (requirements : List String) : Analysis :=
  { campaign_performance :=
      if "campaign_performance" ∈ requirements ∨ requirements = [] then
        some (analyzeCampaignPerformance df)
      else none
    creative_performance :=
      if "creative_performance" ∈ requirements ∨ requirements = [] then
        some (get_creative_performance df)
      else none
    roas_timeline :=
      if "roas_timeline" ∈ requirements ∨ requirements = [] then
        some ((get_roas_timeline df).take 10)
      else none
    low_ctr_count :=
      if "low_ctr_campaigns" ∈ requirements ∨ requirements = [] then
        some (filter_low_ctr df (12/1000)).length
      else none
    low_ctr_campaigns :=
      if "low_ctr_campaigns" ∈ requirements ∨ requirements = [] then
        some ((pyDedup ((filter_low_ctr df (12/1000)).map projLowCtr)).take 5)
      else none }

/-- `DataAgent._perform_analysis`. The source guard reads
`if not self.df is None: return {}`, i.e. the empty dict is returned
exactly when the dataframe IS loaded; `execute` always calls it right
after assigning `self.df`, so the analysis body is dead code (the `none`
branch is modelled over the absent frame). -/
def performAnalysis (df : Option (List AdRecord)) (requirements : List String) : Analysis :=
  match df with
  | some _ => emptyAnalysis
  | none => analysisBody [] requirements

/-- `DataAgent._structure_findings`: the LLM-structured findings, or its
internal fallback dict built from the summary and analysis. -/
inductive Findings where
  | llm : Json → Findings
  | fallback : SummaryM → Analysis → Findings

/-- `_structure_findings` behaviour (its own try/except never raises). -/
def structureFindings (gen : GenOutcome) (summary : SummaryM) (analysis : Analysis) : Findings :=
  match think_json gen with
  | .ok j => .llm j
  | .error _ => .fallback summary analysis

/-- The dict returned by `DataAgent.execute` (fields absent from the
returned dict are `none`). -/
structure DataResult where
  status : String
  data_summary : Option SummaryM := none
  analysis : Option Analysis := none
  structured_findings : Option Findings := none
  record_count : Option Nat := none
  error : Option String := none

/-- Context consumed by `DataAgent.execute`. -/
structure DataContext where
  dataset_path : Option String := none
  sample_mode : Option Bool := none
  sample_size : Option Nat := none
  analysis_requirements : Option (List String) := none

/-- Dataset availability plus the raw generation-service text per call:
the two external effects the pipeline depends on. -/
structure Env where
  datasetExists : Bool
  rows : List AdRecord
  llm : Nat → GenOutcome

/-- `DataAgent.execute`: everything inside one try/except — the missing
dataset makes `DataLoader.load` raise `FileNotFoundError`, which is caught
and returned as a `status=error` dict; it never propagates. -/
def dataAgentExecute (env : Env) (gen : GenOutcome) (ctx : DataContext) : DataResult :=
  let dataset_path := ctx.dataset_path.getD "data/synthetic_fb_ads_undergarments.csv"
  let sample_mode := ctx.sample_mode.getD false
  let sample_size := ctx.sample_size.getD 100
  let requirements := ctx.analysis_requirements.getD []
  if env.datasetExists then
    let df := loaderLoad env.rows sample_mode sample_size
    let summary := mkSummary df
    let analysis := performAnalysis (some df) requirements
    { status := "success"
      data_summary := some summary
      analysis := some analysis
      structured_findings := some (structureFindings gen summary analysis)
      record_count := some df.length }
  else
    { status := "error", error := some ("Dataset not found: " ++ dataset_path) }

/-- The dict returned by `PlannerAgent.execute`. -/
structure PlannerResult where
  status : String
  plan : Json
  task : Option String := none
  error : Option String := none

/-- Context handed to the planner (serialized into the prompt only). -/
structure PlanContext where
  sample_mode : Bool
  sample_size : Nat
  thresholds : List (String × ℚ)

/-- `PlannerAgent.execute`: LLM plan on success, fallback plan with
`status=partial` and the exception message otherwise. -/
def plannerExecute (gen : GenOutcome) (task : String) (_ctx : PlanContext) : PlannerResult :=
  match think_json gen with
  | .ok j => { status := "success", plan := j, task := some task }
  | .error e => { status := "partial", plan := plannerFallbackPlan task, error := some e }

/-- The dict returned by `InsightAgent.execute`. -/
structure InsightResult where
  status : String
  hypotheses : Json
  task : Option String := none
  error : Option String := none

/-- Context handed to the insight agent (prompt-only fields included for
fidelity to `_prepare_insight_context`). -/
structure InsightContext where
  plan : Json
  data_summary : Option SummaryM
  analysis : Analysis

/-- `InsightAgent.execute`. -/
def insightExecute (gen : GenOutcome) (task : String) (_ctx : InsightContext) : InsightResult :=
  match think_json gen with
  | .ok j => { status := "success", hypotheses := j, task := some task }
  | .error e => { status := "partial", hypotheses := insightFallbackHypotheses task, error := some e }

/-- The dict returned by `EvaluatorAgent.execute`. -/
structure EvalResult where
  status : String
  evaluation : Json
  task : Option String := none
  error : Option String := none

/-- Context handed to the evaluator by `_prepare_eval_context`. -/
structure EvalContext where
  hypotheses : Json
  data_summary : Option SummaryM
  analysis : Analysis

/-- `EvaluatorAgent.execute`: the fallback is parameterized by
`context.get('hypotheses', {}).get('hypotheses', [])`. -/
def evaluatorExecute (gen : GenOutcome) (task : String) (ctx : EvalContext) : EvalResult :=
  let hyps := jGetList ctx.hypotheses "hypotheses"
  match think_json gen with
  | .ok j => { status := "success", evaluation := j, task := some task }
  | .error e => { status := "partial", evaluation := evalFallbackEvaluation hyps, error := some e }

/-- The dict returned by `CreativeGeneratorAgent.execute` (the `info`
branch carries `message` and an empty `recommendations` and no `count`;
the success branch carries `recommendations` and `count` and no
`message` — no branch attaches an error). -/
structure CreativeResult where
  status : String
  message : Option String := none
  recommendations : Option (List Json) := none
  count : Option Nat := none

/-- Context handed to the creative agent by `_prepare_creative_context`. -/
structure CreativeContext where
  analysis : Analysis
  data_summary : Option SummaryM

/-- The per-campaign loop of `CreativeGeneratorAgent.execute`: one LLM
call per campaign (consecutive call indices), falling back to the
template recommendations on any failure. -/
def creativeLoop (llm : Nat → GenOutcome) (i : Nat) : List LowCtrRec → List Json
  | [] => []
  | c :: cs =>
    (match think_json (llm i) with
     | .ok j => j
     | .error _ => creativeFallback c) :: creativeLoop llm (i + 1) cs

/-- `CreativeGeneratorAgent.execute`. -/
def creativeExecute (llm : Nat → GenOutcome) (base : Nat) (_task : String)
    (ctx : CreativeContext) : CreativeResult :=
  let low_ctr_campaigns := ctx.analysis.low_ctr_campaigns.getD []
  if low_ctr_campaigns.isEmpty then
    { status := "info"
      message := some "No low-CTR campaigns found for optimization"
      recommendations := some [] }
  else
    let recommendations := creativeLoop llm base (low_ctr_campaigns.take 3)
    { status := "success"
      recommendations := some recommendations
      count := some recommendations.length }

/-! ## Orchestrator (`AgentOrchestrator`, src/orchestrator/runner.py) -/

/-- The configuration keys the orchestrator reads (each optional, with the
source's defaults applied at the read sites). -/
structure Cfg where
  dataset_path : Option String := none
  sample_mode : Option Bool := none
  sample_size : Option Nat := none
  thresholds : List (String × ℚ) := []

/-- `_prepare_plan_context`. -/
def prepPlanContext (cfg : Cfg) : PlanContext :=
  { sample_mode := cfg.sample_mode.getD true
    sample_size := cfg.sample_size.getD 100
    thresholds := cfg.thresholds }

/-- `_prepare_data_context`. -/
def prepDataContext (cfg : Cfg) : DataContext :=
  { dataset_path := some (cfg.dataset_path.getD "data/synthetic_fb_ads_undergarments.csv")
    sample_mode := some (cfg.sample_mode.getD true)
    sample_size := some (cfg.sample_size.getD 100)
    analysis_requirements := some ["campaign_performance", "creative_performance",
      "roas_timeline", "low_ctr_campaigns"] }

/-- `_prepare_insight_context`: `data_result.get(key, {})` folds of the
prior stage outputs (an absent analysis key folds to the empty dict). -/
def prepInsightContext (planR : PlannerResult) (dataR : DataResult) : InsightContext :=
  { plan := planR.plan
    data_summary := dataR.data_summary
    analysis := dataR.analysis.getD emptyAnalysis }

/-- `_prepare_eval_context`. -/
def prepEvalContext (insR : InsightResult) (dataR : DataResult) : EvalContext :=
  { hypotheses := insR.hypotheses
    data_summary := dataR.data_summary
    analysis := dataR.analysis.getD emptyAnalysis }

/-- `_prepare_creative_context`. -/
def prepCreativeContext (dataR : DataResult) : CreativeContext :=
  { analysis := dataR.analysis.getD emptyAnalysis
    data_summary := dataR.data_summary }

/-- One `_record_execution` entry (the wall-clock timestamp is an external
effect and is not part of the model). -/
structure TraceEntry where
  agent : String
  status : String
deriving DecidableEq, Repr

/-- The final report assembled by `_compile_report` — its `status` key is
the hard-coded string `"success"` — and then persisted by
`_save_outputs`. -/
structure Report where
  execution_id : String
  query : String
  status : String
  plan : Json
  data_summary : Option SummaryM
  insights : Json
  evaluation : Json
  creative_recommendations : List Json
  execution_trace : List TraceEntry

/-- Outcome of `AgentOrchestrator.execute`: the compiled-and-persisted
report, or the except-branch dict `{status: error, error, execution_id}`.
Every modelled stage catches its own exceptions and returns a dict, so
the failure branch is unreachable in the model (file-system faults of
`_save_outputs` are outside the model). -/
inductive OrchResult where
  | report : Report → OrchResult
  | failure : String → String → OrchResult

/-- The planner stage of the pipeline (generation call 0). -/
def planStage (env : Env) (cfg : Cfg) (query : String) : PlannerResult :=
  plannerExecute (env.llm 0) query (prepPlanContext cfg)

/-- The data stage (its `_structure_findings` uses generation call 1). -/
def dataStage (env : Env) (cfg : Cfg) : DataResult :=
  dataAgentExecute env (env.llm 1) (prepDataContext cfg)

/-- The insight stage (generation call 2). -/
def insightStage (env : Env) (cfg : Cfg) (query : String) : InsightResult :=
  insightExecute (env.llm 2) query (prepInsightContext (planStage env cfg query) (dataStage env cfg))

/-- The evaluator stage (generation call 3). -/
def evalStage (env : Env) (cfg : Cfg) (query : String) : EvalResult :=
  evaluatorExecute (env.llm 3) query (prepEvalContext (insightStage env cfg query) (dataStage env cfg))

/-- The creative stage (generation calls 4, 5, 6 — one per processed
low-CTR campaign). -/
def creativeStage (env : Env) (cfg : Cfg) (query : String) : CreativeResult :=
  creativeExecute env.llm 4 query (prepCreativeContext (dataStage env cfg))

/-- The `execution_trace` after the five `_record_execution` calls. -/
def executionTrace (env : Env) (cfg : Cfg) (query : String) : List TraceEntry :=
  [ { agent := "planner", status := (planStage env cfg query).status },
    { agent := "data_agent", status := (dataStage env cfg).status },
    { agent := "insight_agent", status := (insightStage env cfg query).status },
    { agent := "evaluator", status := (evalStage env cfg query).status },
    { agent := "creative_generator", status := (creativeStage env cfg query).status } ]

/-- `AgentOrchestrator.execute`: the five stages in sequence, then
`_compile_report` + `_save_outputs`. No stage raises (each catches
internally), so the run always reaches the compile step. -/
def orchestratorExecute (env : Env) (cfg : Cfg) (executionId query : String) : OrchResult :=
  let planR := planStage env cfg query
  let dataR := dataStage env cfg
  let insR := insightStage env cfg query
  let evalR := evalStage env cfg query
  let creatR := creativeStage env cfg query
  .report
    { execution_id := executionId
      query := query
      status := "success"
      plan := planR.plan
      data_summary := dataR.data_summary
      insights := insR.hypotheses
      evaluation := evalR.evaluation
      creative_recommendations := creatR.recommendations.getD []
      execution_trace := executionTrace env cfg query }

/-- Top-level status of an orchestrator outcome (the failure dict carries
the literal status `"error"`). -/
def orchTopStatus : OrchResult → String
  | .report r => r.status
  | .failure _ _ => "error"

/-- Whether a run compiled (and hence persisted) a report. -/
def producesReport : OrchResult → Bool
  | .report _ => true
  | .failure _ _ => false

/-! ## Remaining helper definitions for the verification -/

/-- Fuel accessor for the report payloads. -/
def reportRecsOf : OrchResult → List Json
  | .report r => r.creative_recommendations
  | .failure _ _ => []

mutual

/-- Parser fuel needed for one value (an upper bound on recursion depth). -/
def needV : Json → Nat
  | .str _ => 1
  | .num _ => 1
  | .bool _ => 1
  | .null => 1
  | .arr items => 1 + needI items
  | .obj fields => 1 + needF fields

/-- Parser fuel needed for array items. -/
def needI : JsonItems → Nat
  | .nil => 1
  | .cons x xs => 1 + needV x + needI xs

/-- Parser fuel needed for object members. -/
def needF : JsonFields → Nat
  | .nil => 1
  | .cons _ v vs => 1 + needV v + needF vs

end

/-- The head of `r` (if any) fails the predicate `p`. -/
def headNotP (p : Char → Bool) (r : List Char) : Prop :=
  ∀ c, r.head? = some c → p c = false

/-- A serialized-value head character: the characters the parser
dispatches on. -/
def goodStartB (c : Char) : Bool :=
  c == qC || c == lcbC || c == '[' || c == 't' || c == 'f' || c == 'n' || c.isDigit

/-- A generation service that raises on every call. -/
def llmDown : Nat → GenOutcome := fun _ => .error "service unavailable"

/-- Default (empty) configuration. -/
def cfg0 : Cfg := {}

/-- Sample row with click-through-rate 0.01. -/
def recLowA : AdRecord :=
  { campaign_name := "Campaign A", adset_name := "AdSet 1", creative_type := "Image",
    audience_type := "Broad", country := "US", date := 1, spend := 10,
    impressions := 1000, clicks := 10, purchases := 1, revenue := 5,
    ctr := 1/100, roas := 1/2, creative_message := "Buy now" }

/-- Sample row with click-through-rate exactly 0.012. -/
def recMidB : AdRecord :=
  { campaign_name := "Campaign B", adset_name := "AdSet 2", creative_type := "Video",
    audience_type := "Lookalike", country := "US", date := 2, spend := 12,
    impressions := 1000, clicks := 12, purchases := 1, revenue := 14,
    ctr := 12/1000, roas := 7/6, creative_message := "New drop" }

/-- Sample row with click-through-rate 0.015. -/
def recHighC : AdRecord :=
  { campaign_name := "Campaign C", adset_name := "AdSet 3", creative_type := "UGC",
    audience_type := "Interest", country := "DE", date := 3, spend := 15,
    impressions := 1000, clicks := 15, purchases := 2, revenue := 40,
    ctr := 15/1000, roas := 8/3, creative_message := "Try it" }

/-- Sample row with zero spend but positive revenue. -/
def recZeroSpend : AdRecord :=
  { campaign_name := "Campaign Z", adset_name := "AdSet Z", creative_type := "Image",
    audience_type := "Broad", country := "US", date := 5, spend := 0,
    impressions := 100, clicks := 3, purchases := 1, revenue := 7,
    ctr := 3/100, roas := 0, creative_message := "Zero spend" }

/-- Sample row with zero spend, zero revenue, zero impressions. -/
def recZeroBoth : AdRecord :=
  { campaign_name := "Campaign N", adset_name := "AdSet N", creative_type := "Image",
    audience_type := "Broad", country := "US", date := 6, spend := 0,
    impressions := 0, clicks := 0, purchases := 0, revenue := 0,
    ctr := 0, roas := 0, creative_message := "Empty" }

/-- Environment whose dataset path does not resolve. -/
def envNoData : Env := { datasetExists := false, rows := [], llm := llmDown }

/-- Environment with one loaded row and a failing generation service. -/
def envData1 : Env := { datasetExists := true, rows := [recLowA], llm := llmDown }

/-- Sample planner context. -/
def planCtx0 : PlanContext := { sample_mode := true, sample_size := 100, thresholds := [] }

/-- Sample insight context. -/
def insCtx0 : InsightContext :=
  { plan := jObj [], data_summary := none, analysis := emptyAnalysis }

/-- Sample evaluator context. -/
def evalCtx0 : EvalContext :=
  { hypotheses := jObj [], data_summary := none, analysis := emptyAnalysis }

/-- Sample creative context with one low-CTR campaign. -/
def creativeCtx1 : CreativeContext :=
  { analysis := { emptyAnalysis with low_ctr_campaigns := some [projLowCtr recLowA] }
    data_summary := none }

/-- A response with a labeled fenced block whose interior is not JSON. -/
def badFencedResponse : List Char :=
  fenceJsonM ++ nlC :: ("not json".toList ++ nlC :: fenceM)

/-- Sample row sharing `recLowA`'s date, with spend 20 and revenue 30. -/
def recSameDate : AdRecord :=
  { campaign_name := "Campaign D", adset_name := "AdSet 4", creative_type := "Video",
    audience_type := "Broad", country := "US", date := 1, spend := 20,
    impressions := 500, clicks := 9, purchases := 2, revenue := 30,
    ctr := 18/1000, roas := 3/2, creative_message := "Gift idea" }

/-! # Theorems -/

/-! ## Dataset engine claims -/

theorem creativeLoop_length (llm : Nat → GenOutcome) :
    ∀ (l : List LowCtrRec) (i : Nat), (creativeLoop llm i l).length = l.length := by
  intro l
  induction l with
  | nil => intro i; rfl
  | cons c cs ih => intro i; simp [creativeLoop, ih]

theorem creativeLoop_all_fail (llm : Nat → GenOutcome)
    (hfail : ∀ n, ∃ m, llm n = .error m) :
    ∀ (l : List LowCtrRec) (i : Nat), creativeLoop llm i l = l.map creativeFallback := by
  intro l
  induction l with
  | nil => intro i; rfl
  | cons c cs ih =>
    intro i
    obtain ⟨m, hm⟩ := hfail i
    simp [creativeLoop, hm, think_json, ih]

/-- C9: `filter_low_ctr(threshold)` returns exactly the subsequence of
records whose click-through-rate is strictly below the threshold; on
records with ctr 0.01 / 0.012 / 0.015 and threshold 0.012 it returns
exactly the first record (the boundary is excluded). -/
theorem claim_c9 :
    (∀ (df : List AdRecord) (t : ℚ),
      (filter_low_ctr df t).Sublist df ∧
      ∀ r, r ∈ filter_low_ctr df t ↔ r ∈ df ∧ r.ctr < t) ∧
    (∀ r1 r2 r3 : AdRecord, r1.ctr = 1/100 → r2.ctr = 12/1000 → r3.ctr = 15/1000 →
      filter_low_ctr [r1, r2, r3] (12/1000) = [r1]) := by
  constructor
  · intro df t
    refine ⟨List.filter_sublist _, fun r => ?_⟩
    simp [filter_low_ctr]
  · intro r1 r2 r3 h1 h2 h3
    have e1 : decide (r1.ctr < 12/1000) = true := by rw [h1]; norm_num
    have e2 : decide (r2.ctr < 12/1000) = false := by rw [h2]; norm_num
    have e3 : decide (r3.ctr < 12/1000) = false := by rw [h3]; norm_num
    simp [filter_low_ctr, List.filter, e1, e2, e3]

theorem claim_c9_witness :
    filter_low_ctr [recLowA, recMidB, recHighC] (12/1000) = [recLowA] :=
  claim_c9.2 recLowA recMidB recHighC rfl rfl rfl

/-- C10: the creative stage processes at most the first three items of its
low-CTR input list, producing exactly one recommendation record per
processed item, so its recommendations list has length at most three. -/
theorem claim_c10 (llm : Nat → GenOutcome) (base : Nat) (task : String) (ctx : CreativeContext) :
    ((creativeExecute llm base task ctx).recommendations.getD []).length ≤ 3 ∧
    (ctx.analysis.low_ctr_campaigns.getD [] ≠ [] →
      ((creativeExecute llm base task ctx).recommendations.getD []).length =
        min 3 (ctx.analysis.low_ctr_campaigns.getD []).length) := by
  unfold creativeExecute
  rcases h : (ctx.analysis.low_ctr_campaigns.getD []).isEmpty with _ | _
  · have hne : ctx.analysis.low_ctr_campaigns.getD [] ≠ [] := by
      intro hnil
      rw [hnil] at h
      simp at h
    simp only [h, Bool.false_eq_true, if_false]
    constructor
    · simp [creativeLoop_length]
    · intro _
      simp [creativeLoop_length]
  · have hnil : ctx.analysis.low_ctr_campaigns.getD [] = [] := by
      simpa [List.isEmpty_iff] using h
    simp [h, hnil]

theorem claim_c10_witness :
    ((creativeExecute llmDown 4 "task" creativeCtx1).recommendations.getD []).length ≤ 3 ∧
    ((creativeExecute llmDown 4 "task" creativeCtx1).recommendations.getD []).length =
      min 3 (creativeCtx1.analysis.low_ctr_campaigns.getD []).length :=
  ⟨(claim_c10 llmDown 4 "task" creativeCtx1).1,
   (claim_c10 llmDown 4 "task" creativeCtx1).2 (by decide)⟩


theorem pandasDiv_zero_pos (a : ℚ) (h : 0 < a) : pandasDiv a 0 = FVal.inf := by
  simp [pandasDiv, h]

theorem pandasDiv_zero_zero : pandasDiv 0 0 = FVal.nan := by
  simp [pandasDiv]

theorem timeline_ratio_eq (df : List AdRecord) (e : TimelineEntry)
    (he : e ∈ get_roas_timeline df) :
    e.roas = pandasDiv e.revenue e.spend ∧
    e.ctr = pandasDiv (e.clicks : ℚ) (e.impressions : ℚ) := by
  unfold get_roas_timeline at he
  obtain ⟨d, _, rfl⟩ := List.mem_map.mp he
  exact ⟨rfl, rfl⟩

/-- C7 counterexample: the timeline entry for a zero-spend, positive-revenue
date carries IEEE infinity (and an all-zero date carries NaN) — the
propagating floating-point error state, not a defined sentinel. -/
theorem claim_c7_cex :
    get_roas_timeline [recZeroSpend] =
      [{ date := 5, spend := 0, revenue := 7, impressions := 100, clicks := 3,
         roas := FVal.inf, ctr := FVal.fin (3/100) }] ∧
    get_roas_timeline [recZeroBoth] =
      [{ date := 6, spend := 0, revenue := 0, impressions := 0, clicks := 0,
         roas := FVal.nan, ctr := FVal.nan }] ∧
    FVal.inf ≠ FVal.fin 0 ∧ FVal.nan ≠ FVal.fin 0 := by
  refine ⟨?_, ?_, by decide, by decide⟩
  · unfold get_roas_timeline uniqueDates
    simp [pyDedup, pyDedupGo, insDate, recZeroSpend, pandasDiv]
  · unfold get_roas_timeline uniqueDates
    simp [pyDedup, pyDedupGo, insDate, recZeroBoth, pandasDiv]

/-- C7 (amended): a division by zero in the timeline's derived ratios does
not yield a defined sentinel — it yields the floating-point error state,
which propagates into the returned timeline: infinity when the summed
numerator is positive and the summed denominator is zero, NaN when both
are zero. -/
theorem claim_c7 (df : List AdRecord) (e : TimelineEntry)
    (he : e ∈ get_roas_timeline df) :
    (e.spend = 0 → 0 < e.revenue → e.roas = FVal.inf) ∧
    (e.spend = 0 → e.revenue = 0 → e.roas = FVal.nan) ∧
    (e.impressions = 0 → 0 < e.clicks → e.ctr = FVal.inf) ∧
    (e.impressions = 0 → e.clicks = 0 → e.ctr = FVal.nan) := by
  obtain ⟨hr, hc⟩ := timeline_ratio_eq df e he
  refine ⟨?_, ?_, ?_, ?_⟩
  · intro h0 hpos
    rw [hr, h0]
    exact pandasDiv_zero_pos _ hpos
  · intro h0 h1
    rw [hr, h0, h1]
    exact pandasDiv_zero_zero
  · intro h0 hpos
    rw [hc, h0]
    have hq : (0 : ℚ) < (e.clicks : ℚ) := by exact_mod_cast hpos
    simpa using pandasDiv_zero_pos _ hq
  · intro h0 hck
    rw [hc, h0, hck]
    simpa using pandasDiv_zero_zero

theorem claim_c7_witness :
    ({ date := 5, spend := 0, revenue := 7, impressions := 100, clicks := 3,
       roas := FVal.inf, ctr := FVal.fin (3/100) } : TimelineEntry).roas = FVal.inf :=
  (claim_c7 [recZeroSpend] _
    (by unfold get_roas_timeline uniqueDates
        simp [pyDedup, pyDedupGo, insDate, recZeroSpend, pandasDiv])).1
    rfl (by norm_num)

/-- C8: `get_roas_timeline` groups records by date, sums spend, revenue,
impressions and clicks, and recomputes the ratios from the summed totals;
two same-date records with spend 10/20 and revenue 5/30 collapse to one
entry with spend 30, revenue 35 and derived roas 35/30 — which differs
from the average of the per-record ratios. -/
theorem claim_c8 (r1 r2 : AdRecord) (hd : r2.date = r1.date)
    (h1s : r1.spend = 10) (h1r : r1.revenue = 5)
    (h2s : r2.spend = 20) (h2r : r2.revenue = 30) :
    get_roas_timeline [r1, r2] =
      [{ date := r1.date, spend := 30, revenue := 35,
         impressions := r1.impressions + r2.impressions,
         clicks := r1.clicks + r2.clicks,
         roas := FVal.fin (35/30),
         ctr := pandasDiv ((r1.clicks : ℚ) + (r2.clicks : ℚ))
                  ((r1.impressions : ℚ) + (r2.impressions : ℚ)) }] ∧
    (35/30 : ℚ) = 7/6 ∧
    FVal.fin (35/30) ≠ FVal.fin (((5/10 : ℚ) + 30/20) / 2) := by
  refine ⟨?_, by norm_num, ?_⟩
  · unfold get_roas_timeline uniqueDates
    simp [pyDedup, pyDedupGo, insDate, hd, h1s, h1r, h2s, h2r, pandasDiv]
    norm_num
  · simp only [ne_eq, FVal.fin.injEq]
    norm_num

theorem claim_c8_witness :
    get_roas_timeline [recLowA, recSameDate] =
      [{ date := recLowA.date, spend := 30, revenue := 35,
         impressions := recLowA.impressions + recSameDate.impressions,
         clicks := recLowA.clicks + recSameDate.clicks,
         roas := FVal.fin (35/30),
         ctr := pandasDiv ((recLowA.clicks : ℚ) + (recSameDate.clicks : ℚ))
                  ((recLowA.impressions : ℚ) + (recSameDate.impressions : ℚ)) }] ∧
    (35/30 : ℚ) = 7/6 ∧
    FVal.fin (35/30) ≠ FVal.fin (((5/10 : ℚ) + 30/20) / 2) :=
  claim_c8 recLowA recSameDate rfl rfl rfl rfl rfl

/-! ## Pipeline stage lemmas -/

theorem datasetErr_ne_empty (p : String) : ("Dataset not found: " ++ p) ≠ "" := by
  intro h
  have h2 := congrArg String.length h
  rw [String.length_append] at h2
  simp at h2
  exact absurd h2.1 (by decide)

theorem planner_status_cases (gen : GenOutcome) (task : String) (ctx : PlanContext) :
    (plannerExecute gen task ctx).status = "success" ∨
    (plannerExecute gen task ctx).status = "partial" := by
  rcases hj : think_json gen with e | j
  · right; simp [plannerExecute, hj]
  · left; simp [plannerExecute, hj]

theorem planner_partial_payload (gen : GenOutcome) (task : String) (ctx : PlanContext)
    (h : (plannerExecute gen task ctx).status = "partial") :
    objNonEmptyB (plannerExecute gen task ctx).plan = true ∧
    (plannerExecute gen task ctx).error.isSome = true := by
  rcases hj : think_json gen with e | j
  · simp only [plannerExecute, hj]
    exact ⟨rfl, rfl⟩
  · have hs : (plannerExecute gen task ctx).status = "success" := by
      simp [plannerExecute, hj]
    exact absurd (hs.symm.trans h) (by decide)

theorem insight_status_cases (gen : GenOutcome) (task : String) (ctx : InsightContext) :
    (insightExecute gen task ctx).status = "success" ∨
    (insightExecute gen task ctx).status = "partial" := by
  rcases hj : think_json gen with e | j
  · right; simp [insightExecute, hj]
  · left; simp [insightExecute, hj]

theorem insight_partial_payload (gen : GenOutcome) (task : String) (ctx : InsightContext)
    (h : (insightExecute gen task ctx).status = "partial") :
    objNonEmptyB (insightExecute gen task ctx).hypotheses = true ∧
    (insightExecute gen task ctx).error.isSome = true := by
  rcases hj : think_json gen with e | j
  · simp only [insightExecute, hj]
    exact ⟨rfl, rfl⟩
  · have hs : (insightExecute gen task ctx).status = "success" := by
      simp [insightExecute, hj]
    exact absurd (hs.symm.trans h) (by decide)

theorem evaluator_status_cases (gen : GenOutcome) (task : String) (ctx : EvalContext) :
    (evaluatorExecute gen task ctx).status = "success" ∨
    (evaluatorExecute gen task ctx).status = "partial" := by
  rcases hj : think_json gen with e | j
  · right; simp [evaluatorExecute, hj]
  · left; simp [evaluatorExecute, hj]

theorem evaluator_partial_payload (gen : GenOutcome) (task : String) (ctx : EvalContext)
    (h : (evaluatorExecute gen task ctx).status = "partial") :
    objNonEmptyB (evaluatorExecute gen task ctx).evaluation = true ∧
    (evaluatorExecute gen task ctx).error.isSome = true := by
  rcases hj : think_json gen with e | j
  · simp only [evaluatorExecute, hj]
    exact ⟨rfl, rfl⟩
  · have hs : (evaluatorExecute gen task ctx).status = "success" := by
      simp [evaluatorExecute, hj]
    exact absurd (hs.symm.trans h) (by decide)

theorem dataStage_status_cases (env : Env) (cfg : Cfg) :
    (dataStage env cfg).status = "success" ∨
    ((dataStage env cfg).status = "error" ∧
      (dataStage env cfg).error =
        some ("Dataset not found: " ++
          cfg.dataset_path.getD "data/synthetic_fb_ads_undergarments.csv")) := by
  rcases h : env.datasetExists with _ | _
  · right
    constructor
    · simp [dataStage, dataAgentExecute, h]
    · simp [dataStage, dataAgentExecute, h, prepDataContext]
  · left
    simp [dataStage, dataAgentExecute, h]

theorem dataStage_analysis_empty (env : Env) (cfg : Cfg) :
    (dataStage env cfg).analysis.getD emptyAnalysis = emptyAnalysis := by
  rcases h : env.datasetExists with _ | _
  · simp [dataStage, dataAgentExecute, h]
  · simp [dataStage, dataAgentExecute, h, performAnalysis]

theorem creativeStage_info (env : Env) (cfg : Cfg) (q : String) :
    creativeStage env cfg q =
      { status := "info", message := some "No low-CTR campaigns found for optimization",
        recommendations := some [] } := by
  unfold creativeStage creativeExecute prepCreativeContext
  rw [dataStage_analysis_empty env cfg]
  rfl

/-! ## Pipeline claims -/

/-- C1 counterexample: with a non-resolving dataset path the orchestrator
still returns top-level status `success`, attempts all five stages, and
compiles (hence persists) a report — the stage-level error is only
recorded in the trace. -/
theorem claim_c1_cex :
    orchTopStatus (orchestratorExecute envNoData cfg0 "exec1" "why did ROAS drop?") = "success" ∧
    ("success" : String) ≠ "error" ∧
    producesReport (orchestratorExecute envNoData cfg0 "exec1" "why did ROAS drop?") = true ∧
    (executionTrace envNoData cfg0 "why did ROAS drop?").map TraceEntry.status =
      ["partial", "error", "partial", "partial", "info"] :=
  ⟨rfl, by decide, rfl, rfl⟩

/-- C1 (amended): when the dataset path does not resolve, the
`FileNotFoundError` is caught inside `DataAgent.execute`, which returns a
stage-level `status=error` dict; the orchestrator still attempts all
remaining stages and compiles and persists a report whose top-level
status is `success`. -/
theorem claim_c1 (env : Env) (cfg : Cfg) (eid q : String)
    (h : env.datasetExists = false) :
    orchTopStatus (orchestratorExecute env cfg eid q) = "success" ∧
    producesReport (orchestratorExecute env cfg eid q) = true ∧
    (dataStage env cfg).status = "error" ∧
    (dataStage env cfg).error =
      some ("Dataset not found: " ++
        cfg.dataset_path.getD "data/synthetic_fb_ads_undergarments.csv") ∧
    (executionTrace env cfg q).length = 5 := by
  refine ⟨rfl, rfl, ?_, ?_, rfl⟩
  · simp [dataStage, dataAgentExecute, h]
  · simp [dataStage, dataAgentExecute, h, prepDataContext]

theorem claim_c1_witness :
    orchTopStatus (orchestratorExecute envNoData cfg0 "exec2" "q") = "success" ∧
    producesReport (orchestratorExecute envNoData cfg0 "exec2" "q") = true ∧
    (dataStage envNoData cfg0).status = "error" ∧
    (dataStage envNoData cfg0).error =
      some ("Dataset not found: " ++
        cfg0.dataset_path.getD "data/synthetic_fb_ads_undergarments.csv") ∧
    (executionTrace envNoData cfg0 "q").length = 5 :=
  claim_c1 envNoData cfg0 "exec2" "q" rfl

/-- C2 counterexample: the Creative role violates the claim — with a
generation service that raises on every call and a non-empty input list,
`execute` returns `status=success` (fallbacks silently substituted, no
error attached), not `status=partial`. -/
theorem claim_c2_cex :
    (creativeExecute llmDown 4 "task" creativeCtx1).status = "success" ∧
    ("success" : String) ≠ "partial" :=
  ⟨rfl, by decide⟩

/-- C2 (amended): when the generation service raises on every call,
Planner, Insight and Evaluator return `status=partial` with their
non-empty role-specific fallback payload and the error message attached,
and never raise; the Creative role also never raises, but instead returns
`status=success` with one fallback recommendation per processed campaign
and no error message (or `status=info` with an empty recommendations list
when its input list is empty). -/
theorem claim_c2 :
    (∀ (e task : String) (ctx : PlanContext),
      (plannerExecute (.error e) task ctx).status = "partial" ∧
      objNonEmptyB (plannerExecute (.error e) task ctx).plan = true ∧
      (plannerExecute (.error e) task ctx).error =
        some ("LLM generation failed: " ++ e)) ∧
    (∀ (e task : String) (ctx : InsightContext),
      (insightExecute (.error e) task ctx).status = "partial" ∧
      objNonEmptyB (insightExecute (.error e) task ctx).hypotheses = true ∧
      (insightExecute (.error e) task ctx).error =
        some ("LLM generation failed: " ++ e)) ∧
    (∀ (e task : String) (ctx : EvalContext),
      (evaluatorExecute (.error e) task ctx).status = "partial" ∧
      objNonEmptyB (evaluatorExecute (.error e) task ctx).evaluation = true ∧
      (evaluatorExecute (.error e) task ctx).error =
        some ("LLM generation failed: " ++ e)) ∧
    (∀ (llm : Nat → GenOutcome) (base : Nat) (task : String) (ctx : CreativeContext),
      (∀ n, ∃ m, llm n = .error m) →
      (ctx.analysis.low_ctr_campaigns.getD [] = [] →
        creativeExecute llm base task ctx =
          { status := "info",
            message := some "No low-CTR campaigns found for optimization",
            recommendations := some [] }) ∧
      (ctx.analysis.low_ctr_campaigns.getD [] ≠ [] →
        (creativeExecute llm base task ctx).status = "success" ∧
        (creativeExecute llm base task ctx).recommendations =
          some (((ctx.analysis.low_ctr_campaigns.getD []).take 3).map creativeFallback) ∧
        (creativeExecute llm base task ctx).message = none)) := by
  refine ⟨fun e task ctx => ⟨rfl, rfl, rfl⟩,
          fun e task ctx => ⟨rfl, rfl, rfl⟩,
          fun e task ctx => ⟨rfl, rfl, rfl⟩,
          fun llm base task ctx hfail => ⟨?_, ?_⟩⟩
  · intro hnil
    simp [creativeExecute, hnil]
  · intro hne
    have hemp : (ctx.analysis.low_ctr_campaigns.getD []).isEmpty = false := by
      simpa [List.isEmpty_iff] using hne
    refine ⟨?_, ?_, ?_⟩
    · simp [creativeExecute, hemp]
    · simp [creativeExecute, hemp, creativeLoop_all_fail llm hfail]
    · simp [creativeExecute, hemp]

theorem claim_c2_witness :
    (plannerExecute (.error "boom") "q" planCtx0).status = "partial" ∧
    (insightExecute (.error "boom") "q" insCtx0).status = "partial" ∧
    (evaluatorExecute (.error "boom") "q" evalCtx0).status = "partial" ∧
    (creativeExecute llmDown 4 "q" creativeCtx1).recommendations =
      some (((creativeCtx1.analysis.low_ctr_campaigns.getD []).take 3).map creativeFallback) :=
  ⟨(claim_c2.1 "boom" "q" planCtx0).1,
   (claim_c2.2.1 "boom" "q" insCtx0).1,
   (claim_c2.2.2.1 "boom" "q" evalCtx0).1,
   ((claim_c2.2.2.2 llmDown 4 "q" creativeCtx1
      (fun n => ⟨"service unavailable", rfl⟩)).2 (by decide)).2.1⟩

/-- C3 counterexample: a reachable pipeline run records the Creative
stage's status `info`, which is outside the claimed status set
{success, partial, error}. -/
theorem claim_c3_cex :
    "info" ∈ (executionTrace envData1 cfg0 "query").map TraceEntry.status ∧
    ("info" : String) ∉ (["success", "partial", "error"] : List String) := by
  constructor
  · have hc := creativeStage_info envData1 cfg0 "query"
    simp [executionTrace, hc]
  · decide

/-- C3 (amended): every reachable stage status lies in
{success, partial, error, info}; a `partial` result always carries the
non-empty role fallback payload and an error message, a data-stage
`error` result always carries a non-empty error message, and the `info`
result carries a message — but stage outputs folded into later contexts
can still be empty (the folded analysis dict always is). -/
theorem claim_c3 (env : Env) (cfg : Cfg) (q : String) :
    (∀ t ∈ executionTrace env cfg q,
      t.status ∈ (["success", "partial", "error", "info"] : List String)) ∧
    ((planStage env cfg q).status = "partial" →
      objNonEmptyB (planStage env cfg q).plan = true ∧
      (planStage env cfg q).error.isSome = true) ∧
    ((insightStage env cfg q).status = "partial" →
      objNonEmptyB (insightStage env cfg q).hypotheses = true ∧
      (insightStage env cfg q).error.isSome = true) ∧
    ((evalStage env cfg q).status = "partial" →
      objNonEmptyB (evalStage env cfg q).evaluation = true ∧
      (evalStage env cfg q).error.isSome = true) ∧
    ((dataStage env cfg).status = "error" →
      ∃ m, (dataStage env cfg).error = some m ∧ m ≠ "") ∧
    (creativeStage env cfg q).message.isSome = true ∧
    (dataStage env cfg).analysis.getD emptyAnalysis = emptyAnalysis := by
  refine ⟨?_, planner_partial_payload _ _ _, insight_partial_payload _ _ _,
          evaluator_partial_payload _ _ _, ?_, ?_, dataStage_analysis_empty env cfg⟩
  · intro t ht
    simp only [executionTrace, List.mem_cons, List.not_mem_nil, or_false] at ht
    rcases ht with rfl | rfl | rfl | rfl | rfl
    · rcases planner_status_cases (env.llm 0) q (prepPlanContext cfg) with hs | hs <;>
        simp [planStage] at hs ⊢ <;> simp [hs]
    · rcases dataStage_status_cases env cfg with hs | ⟨hs, _⟩ <;> simp [hs]
    · rcases insight_status_cases (env.llm 2) q
        (prepInsightContext (planStage env cfg q) (dataStage env cfg)) with hs | hs <;>
        simp [insightStage] at hs ⊢ <;> simp [hs]
    · rcases evaluator_status_cases (env.llm 3) q
        (prepEvalContext (insightStage env cfg q) (dataStage env cfg)) with hs | hs <;>
        simp [evalStage] at hs ⊢ <;> simp [hs]
    · rw [creativeStage_info env cfg q]
      decide
  · intro hs
    rcases dataStage_status_cases env cfg with h | ⟨_, herr⟩
    · exact absurd (h.symm.trans hs) (by decide)
    · exact ⟨_, herr, datasetErr_ne_empty _⟩
  · rw [creativeStage_info env cfg q]
    rfl

theorem claim_c3_witness :
    (∀ t ∈ executionTrace envData1 cfg0 "query",
      t.status ∈ (["success", "partial", "error", "info"] : List String)) ∧
    ((dataStage envData1 cfg0).status = "error" →
      ∃ m, (dataStage envData1 cfg0).error = some m ∧ m ≠ "") :=
  ⟨(claim_c3 envData1 cfg0 "query").1, (claim_c3 envData1 cfg0 "query").2.2.2.2.1⟩

/-- C4: whenever the dataset loads without error, the inverted guard
`if not self.df is None: return {}` in `_perform_analysis` returns the
empty dict, so the data stage's `analysis` is always empty; the creative
context's low-CTR list is therefore empty and the Creative stage always
returns `status=info` with an empty recommendations list (and the report
carries no creative recommendations). -/
theorem claim_c4 (env : Env) (cfg : Cfg) (eid q : String)
    (h : env.datasetExists = true) :
    (dataStage env cfg).analysis = some emptyAnalysis ∧
    (∀ (df : List AdRecord) (reqs : List String),
      performAnalysis (some df) reqs = emptyAnalysis) ∧
    (creativeStage env cfg q).status = "info" ∧
    (creativeStage env cfg q).recommendations = some [] ∧
    reportRecsOf (orchestratorExecute env cfg eid q) = [] := by
  refine ⟨?_, fun df reqs => rfl, ?_, ?_, ?_⟩
  · simp [dataStage, dataAgentExecute, h, performAnalysis]
  · rw [creativeStage_info env cfg q]
  · rw [creativeStage_info env cfg q]
  · show ((creativeStage env cfg q).recommendations).getD [] = []
    rw [creativeStage_info env cfg q]
    rfl

theorem claim_c4_witness :
    (dataStage envData1 cfg0).analysis = some emptyAnalysis ∧
    (∀ (df : List AdRecord) (reqs : List String),
      performAnalysis (some df) reqs = emptyAnalysis) ∧
    (creativeStage envData1 cfg0 "q").status = "info" ∧
    (creativeStage envData1 cfg0 "q").recommendations = some [] ∧
    reportRecsOf (orchestratorExecute envData1 cfg0 "exec3" "q") = [] :=
  claim_c4 envData1 cfg0 "exec3" "q" rfl

/-! ## Python split lemmas -/

theorem leadsWith_append_self (p t : List Char) : leadsWith p (p ++ t) = true := by
  induction p with
  | nil => rfl
  | cons a as ih => simp [leadsWith, ih]

theorem pySplitGo_fuel (c0 : Char) (r : List Char) :
    ∀ (f g : Nat) (s : List Char), s.length ≤ f → s.length ≤ g →
      pySplitGo c0 r f s = pySplitGo c0 r g s := by
  intro f
  induction f with
  | zero =>
    intro g s hf _
    have : s = [] := List.eq_nil_of_length_eq_zero (Nat.le_zero.mp hf)
    subst this
    cases g <;> rfl
  | succ f ih =>
    intro g s hf hg
    cases s with
    | nil => cases g <;> rfl
    | cons c cs =>
      cases g with
      | zero => exact absurd hg (by simp)
      | succ g =>
        simp only [pySplitGo]
        have hdrop : (cs.drop r.length).length ≤ cs.length := by
          simp [List.length_drop]
        have hcs : cs.length ≤ f := by simpa using hf
        have hcs' : cs.length ≤ g := by simpa using hg
        rw [ih g (cs.drop r.length) (le_trans hdrop hcs) (le_trans hdrop hcs'),
            ih g cs hcs hcs']

theorem pySplitGo_not_mem (c0 : Char) (r : List Char) :
    ∀ (s : List Char) (f : Nat), c0 ∉ s → s.length ≤ f →
      pySplitGo c0 r f s = [s] := by
  intro s
  induction s with
  | nil => intro f _ _; cases f <;> rfl
  | cons c cs ih =>
    intro f hmem hf
    cases f with
    | zero => exact absurd hf (by simp)
    | succ f =>
      have hne : (c0 == c) = false := by
        simp only [beq_eq_false_iff_ne, ne_eq]
        intro h
        exact hmem (h ▸ List.mem_cons_self c cs)
      simp only [pySplitGo, leadsWith, hne, Bool.false_and, Bool.false_eq_true, if_false]
      rw [ih f (fun h => hmem (List.mem_cons_of_mem c h)) (by simpa using hf)]

theorem pySplit_not_mem (c0 : Char) (r s : List Char) (h : c0 ∉ s) :
    pySplit (c0 :: r) s = [s] :=
  pySplitGo_not_mem c0 r s s.length h le_rfl

theorem pySplit_sepLead (c0 : Char) (r t : List Char) :
    pySplit (c0 :: r) ((c0 :: r) ++ t) = [] :: pySplit (c0 :: r) t := by
  show pySplitGo c0 r ((c0 :: r) ++ t).length ((c0 :: r) ++ t) = _
  have hlen : ((c0 :: r) ++ t).length = (r ++ t).length + 1 := by simp
  rw [hlen]
  show pySplitGo c0 r ((r ++ t).length + 1) (c0 :: (r ++ t)) = _
  have hl : leadsWith (c0 :: r) (c0 :: (r ++ t)) = true := by
    simpa using leadsWith_append_self (c0 :: r) t
  simp only [pySplitGo, hl, if_true]
  rw [List.drop_left, pySplitGo_fuel c0 r ((r ++ t).length) t.length t (by simp) le_rfl]
  rfl

theorem pySplit_straddle (c0 : Char) (r : List Char) :
    ∀ (u t h : List Char) (t2 : List (List Char)), c0 ∉ u →
      pySplit (c0 :: r) t = h :: t2 →
      pySplit (c0 :: r) (u ++ t) = (u ++ h) :: t2 := by
  intro u
  induction u with
  | nil => intro t h t2 _ hp; simpa using hp
  | cons c cs ih =>
    intro t h t2 hmem hp
    have hne : (c0 == c) = false := by
      simp only [beq_eq_false_iff_ne, ne_eq]
      intro hcc
      exact hmem (hcc ▸ List.mem_cons_self c cs)
    show pySplitGo c0 r ((c :: cs ++ t).length) (c :: (cs ++ t)) = _
    have hlen : (c :: cs ++ t).length = (cs ++ t).length + 1 := by simp
    rw [hlen]
    simp only [pySplitGo, leadsWith, hne, Bool.false_and, Bool.false_eq_true, if_false]
    have := ih t h t2 (fun hx => hmem (List.mem_cons_of_mem c hx)) hp
    show (match pySplitGo c0 r (cs ++ t).length (cs ++ t) with
      | [] => [[c]]
      | h :: t => (c :: h) :: t) = _
    rw [show pySplitGo c0 r (cs ++ t).length (cs ++ t) = (cs ++ h) :: t2 from this]
    simp

theorem pySplit_append_nomem (c0 : Char) (r u t : List Char) (hmem : c0 ∉ u)
    (h : pySplit (c0 :: r) t = [t]) :
    pySplit (c0 :: r) (u ++ t) = [u ++ t] :=
  pySplit_straddle c0 r u t t [] hmem h

theorem pySplit_cons_nomatch (c0 : Char) (r : List Char) (c : Char) (cs : List Char)
    (hpre : leadsWith (c0 :: r) (c :: cs) = false)
    (h : pySplit (c0 :: r) cs = [cs]) :
    pySplit (c0 :: r) (c :: cs) = [c :: cs] := by
  show pySplitGo c0 r (c :: cs).length (c :: cs) = _
  have hlen : (c :: cs).length = cs.length + 1 := by simp
  rw [hlen]
  simp only [pySplitGo, hpre, Bool.false_eq_true, if_false]
  rw [show pySplitGo c0 r cs.length cs = [cs] from h]

/-! ## Whitespace and strip lemmas -/

theorem skipWS_cons (c : Char) (s : List Char) (h : isWSChar c = false) :
    skipWS (c :: s) = c :: s := by
  simp [skipWS, List.dropWhile_cons, h]

theorem pyStrip_fence_block (mid : List Char) :
    pyStrip (nlC :: ((lcbC :: mid ++ [rcbC]) ++ [nlC])) = lcbC :: mid ++ [rcbC] := by
  have w1 : isWSChar nlC = true := by decide
  have w2 : isWSChar lcbC = false := by decide
  have w3 : isWSChar rcbC = false := by decide
  unfold pyStrip
  rw [List.dropWhile_cons]
  simp only [w1, if_true]
  rw [show (lcbC :: mid ++ [rcbC]) ++ [nlC] = lcbC :: (mid ++ [rcbC] ++ [nlC]) by simp]
  rw [List.dropWhile_cons]
  simp only [w2, Bool.false_eq_true, if_false]
  rw [show (lcbC :: (mid ++ [rcbC] ++ [nlC])).reverse = nlC :: rcbC :: (mid.reverse ++ [lcbC]) by
    simp]
  rw [List.dropWhile_cons]
  simp only [w1, if_true]
  rw [List.dropWhile_cons]
  simp only [w3, Bool.false_eq_true, if_false]
  simp

/-! ## String-body and digit parsing lemmas -/

theorem parseStrBody_roundtrip (content rest : List Char) (h : qC ∉ content) :
    parseStrBody (content ++ qC :: rest) = some (content, rest) := by
  induction content with
  | nil => simp [parseStrBody]
  | cons c cs ih =>
    have hne : c ≠ qC := fun hc => h (hc ▸ List.mem_cons_self c cs)
    simp only [List.cons_append, parseStrBody, hne, if_false]
    simp [ih (fun hx => h (List.mem_cons_of_mem c hx))]

theorem takeWhile_append_all (p : Char → Bool) :
    ∀ (l r : List Char), (∀ c ∈ l, p c = true) → headNotP p r →
      (l ++ r).takeWhile p = l ∧ (l ++ r).dropWhile p = r := by
  intro l
  induction l with
  | nil =>
    intro r _ hr
    cases r with
    | nil => exact ⟨rfl, rfl⟩
    | cons c cs =>
      have := hr c rfl
      simp [List.takeWhile_cons, List.dropWhile_cons, this]
  | cons c cs ih =>
    intro r hall hr
    have hc := hall c (List.mem_cons_self c cs)
    have ⟨ht, hd⟩ := ih r (fun x hx => hall x (List.mem_cons_of_mem c hx)) hr
    simp [List.takeWhile_cons, List.dropWhile_cons, hc, ht, hd]

theorem digitChar_isDigit : ∀ d, d < 10 → (Nat.digitChar d).isDigit = true := by decide

theorem digitChar_val : ∀ d, d < 10 → (Nat.digitChar d).toNat - 48 = d := by decide

theorem natDigitsChars_all_digits (n : Nat) :
    ∀ c ∈ natDigitsChars n, c.isDigit = true := by
  intro c hc
  unfold natDigitsChars at hc
  rw [List.mem_reverse, List.mem_map] at hc
  obtain ⟨d, hd, rfl⟩ := hc
  exact digitChar_isDigit d (Nat.digits_lt_base (by norm_num) hd)

theorem foldl_digits (ds : List Nat) (h : ∀ d ∈ ds, d < 10) (acc : Nat) :
    List.foldl (fun a c => 10 * a + (c.toNat - 48)) acc ((ds.map Nat.digitChar).reverse) =
      acc * 10 ^ ds.length + Nat.ofDigits 10 ds := by
  induction ds generalizing acc with
  | nil => simp [Nat.ofDigits]
  | cons d ds ih =>
    have hd := h d (List.mem_cons_self d ds)
    have hds : ∀ x ∈ ds, x < 10 := fun x hx => h x (List.mem_cons_of_mem d hx)
    simp only [List.map_cons, List.reverse_cons, List.foldl_append, List.foldl_cons,
      List.foldl_nil]
    rw [ih hds acc, digitChar_val d hd, Nat.ofDigits_cons, List.length_cons]
    ring

theorem digitsToNat_natDigitsChars (n : Nat) : digitsToNat (natDigitsChars n) = n := by
  unfold digitsToNat natDigitsChars
  rw [foldl_digits (Nat.digits 10 n) (fun d hd => Nat.digits_lt_base (by norm_num) hd) 0]
  simp [Nat.ofDigits_digits]

/-! ## Number serialization lemmas -/

theorem serNum_all_digits (q : ℚ) : ∀ c ∈ serNum q, c.isDigit = true := by
  intro c hc
  unfold serNum at hc
  by_cases h : q = 0
  · rw [if_pos h] at hc
    simp at hc
    subst hc
    decide
  · rw [if_neg h] at hc
    exact natDigitsChars_all_digits _ c hc

theorem serNum_ne_nil (q : ℚ) (_hq : q.den = 1) (h0 : 0 ≤ q.num) : serNum q ≠ [] := by
  unfold serNum
  by_cases h : q = 0
  · simp [h]
  · rw [if_neg h]
    have hnum : q.num ≠ 0 := Rat.num_ne_zero.mpr h
    have hpos : 0 < q.num := lt_of_le_of_ne h0 (Ne.symm hnum)
    have htn : q.num.toNat ≠ 0 := by omega
    unfold natDigitsChars
    simp [Nat.digits_ne_nil_iff_ne_zero.mpr htn]

theorem digitsToNat_serNum (q : ℚ) : digitsToNat (serNum q) = q.num.toNat := by
  unfold serNum
  by_cases h : q = 0
  · rw [if_pos h, h]
    decide
  · rw [if_neg h]
    exact digitsToNat_natDigitsChars _

theorem rat_cast_toNat (q : ℚ) (hq : q.den = 1) (h0 : 0 ≤ q.num) :
    ((q.num.toNat : ℕ) : ℚ) = q := by
  have h1 : ((q.num.toNat : ℤ)) = q.num := Int.toNat_of_nonneg h0
  have h2 : ((q.num : ℚ)) = q := by
    rw [← Rat.num_div_den q, hq]
    simp
  calc ((q.num.toNat : ℕ) : ℚ) = ((q.num.toNat : ℤ) : ℚ) := by push_cast; ring
    _ = (q.num : ℚ) := by rw [h1]
    _ = q := h2

theorem parseNumGreedy_ser (q : ℚ) (hq : q.den = 1) (h0 : 0 ≤ q.num)
    (rest : List Char) (hr : headNotP Char.isDigit rest) :
    parseNumGreedy (serNum q ++ rest) = some (q, rest) := by
  have ⟨ht, hd⟩ := takeWhile_append_all Char.isDigit (serNum q) rest (serNum_all_digits q) hr
  obtain ⟨c, cs, hsc⟩ := List.exists_cons_of_ne_nil (serNum_ne_nil q hq h0)
  unfold parseNumGreedy
  rw [ht, hd, hsc]
  show some ((digitsToNat (c :: cs) : ℚ), rest) = some (q, rest)
  rw [← hsc, digitsToNat_serNum, rat_cast_toNat q hq h0]

/-! ## Serialized-value head lemmas -/

theorem goodStart_not_ws (c : Char) (h : goodStartB c = true) : isWSChar c = false := by
  rcases hw : isWSChar c with _ | _
  · rfl
  · exfalso
    simp [isWSChar] at hw
    rcases hw with ((rfl | rfl) | rfl) | rfl <;> exact absurd h (by decide)

theorem serVal_shape (j : Json) (hwf : wfVal j = true) :
    ∃ c t, serVal j = c :: t ∧ goodStartB c = true := by
  cases j with
  | str s => exact ⟨qC, _, rfl, by decide⟩
  | num q =>
    have hden : q.den = 1 ∧ 0 ≤ q.num := by
      simpa [wfVal, Bool.and_eq_true] using hwf
    obtain ⟨c, cs, hsc⟩ := List.exists_cons_of_ne_nil (serNum_ne_nil q hden.1 hden.2)
    refine ⟨c, cs, hsc, ?_⟩
    have hcd : c.isDigit = true :=
      serNum_all_digits q c (hsc ▸ List.mem_cons_self c cs)
    simp [goodStartB, hcd]
  | bool b =>
    cases b with
    | false => exact ⟨'f', _, rfl, by decide⟩
    | true => exact ⟨'t', _, rfl, by decide⟩
  | null => exact ⟨'n', _, rfl, by decide⟩
  | arr items => exact ⟨'[', _, rfl, by decide⟩
  | obj fields => exact ⟨lcbC, _, rfl, by decide⟩

theorem skipWS_serVal (j : Json) (hwf : wfVal j = true) (t : List Char) :
    skipWS (serVal j ++ t) = serVal j ++ t := by
  obtain ⟨c, cs, hsc, hg⟩ := serVal_shape j hwf
  rw [hsc, List.cons_append]
  exact skipWS_cons c (cs ++ t) (goodStart_not_ws c hg)

theorem wfStr_not_mem_q (l : List Char) (h : wfStr l = true) : qC ∉ l := by
  intro hm
  have := List.all_eq_true.mp h _ hm
  simp at this

theorem wfStr_not_mem_bt (l : List Char) (h : wfStr l = true) : btC ∉ l := by
  intro hm
  have := List.all_eq_true.mp h _ hm
  simp at this

/-! ## Parser dispatch lemmas -/

theorem parseVal_bt (f : Nat) (s : List Char) : parseVal f (btC :: s) = none := by
  cases f with
  | zero => rfl
  | succ f =>
    simp only [parseVal]
    rw [if_neg (by decide : ¬(btC = qC)), if_neg (by decide : ¬(btC = lcbC)),
        if_neg (by decide : ¬(btC = '[')), if_neg (by decide : ¬(btC = 't')),
        if_neg (by decide : ¬(btC = 'f')), if_neg (by decide : ¬(btC = 'n')),
        if_neg (by decide : ¬(btC.isDigit = true))]

theorem parseJson_bt (s : List Char) : parseJson (btC :: s) = none := by
  unfold parseJson
  rw [skipWS_cons btC s (by decide), parseVal_bt]

theorem parseVal_true (f : Nat) (rest : List Char) :
    parseVal (f + 1) ('t' :: 'r' :: 'u' :: 'e' :: rest) = some (.bool true, rest) := by
  simp only [parseVal]
  rw [if_neg (by decide : ¬(('t' : Char) = qC)), if_neg (by decide : ¬(('t' : Char) = lcbC)),
      if_neg (by decide : ¬(('t' : Char) = '[')), if_pos trivial]
  have hl : leadsWith ['r', 'u', 'e'] ('r' :: 'u' :: 'e' :: rest) = true := by
    simp [leadsWith]
  rw [if_pos hl]
  rfl

theorem parseVal_false (f : Nat) (rest : List Char) :
    parseVal (f + 1) ('f' :: 'a' :: 'l' :: 's' :: 'e' :: rest) = some (.bool false, rest) := by
  simp only [parseVal]
  rw [if_neg (by decide : ¬(('f' : Char) = qC)), if_neg (by decide : ¬(('f' : Char) = lcbC)),
      if_neg (by decide : ¬(('f' : Char) = '[')), if_neg (by decide : ¬(('f' : Char) = 't')),
      if_pos trivial]
  have hl : leadsWith ['a', 'l', 's', 'e'] ('a' :: 'l' :: 's' :: 'e' :: rest) = true := by
    simp [leadsWith]
  rw [if_pos hl]
  rfl

theorem parseVal_null (f : Nat) (rest : List Char) :
    parseVal (f + 1) ('n' :: 'u' :: 'l' :: 'l' :: rest) = some (.null, rest) := by
  simp only [parseVal]
  rw [if_neg (by decide : ¬(('n' : Char) = qC)), if_neg (by decide : ¬(('n' : Char) = lcbC)),
      if_neg (by decide : ¬(('n' : Char) = '[')), if_neg (by decide : ¬(('n' : Char) = 't')),
      if_neg (by decide : ¬(('n' : Char) = 'f')), if_pos trivial]
  have hl : leadsWith ['u', 'l', 'l'] ('u' :: 'l' :: 'l' :: rest) = true := by
    simp [leadsWith]
  rw [if_pos hl]
  rfl

/-! ## Round-trip supporting lemmas -/

theorem headNotP_cons (p : Char → Bool) (c : Char) (t : List Char) (h : p c = false) :
    headNotP p (c :: t) := by
  intro d hd
  rw [List.head?_cons] at hd
  exact (Option.some.inj hd) ▸ h

theorem headNotP_nil (p : Char → Bool) : headNotP p [] := by
  intro d hd
  simp at hd

theorem serItemsChars_cons (x : Json) (xs : JsonItems) :
    ∃ u, serItemsChars (.cons x xs) = serVal x ++ u := by
  cases xs with
  | nil => exact ⟨[], by simp [serItemsChars]⟩
  | cons y ys => exact ⟨',' :: serItemsChars (.cons y ys), rfl⟩

theorem serFieldsChars_cons (k : String) (v : Json) (vs : JsonFields) :
    ∃ u, serFieldsChars (.cons k v vs) = qC :: u := by
  cases vs with
  | nil => exact ⟨k.data ++ [qC] ++ ':' :: serVal v, by simp [serFieldsChars, serStr]⟩
  | cons k2 w ws =>
    exact ⟨k.data ++ [qC] ++ ':' :: serVal v ++
      ',' :: serFieldsChars (.cons k2 w ws), by simp [serFieldsChars, serStr]⟩

theorem goodStart_ne_rsb (c : Char) (hg : goodStartB c = true) : ¬(c = ']') := by
  intro h
  rw [h] at hg
  exact absurd hg (by decide)

theorem goodStart_ne_rcb (c : Char) (hg : goodStartB c = true) : ¬(c = rcbC) := by
  intro h
  rw [h] at hg
  exact absurd hg (by decide)

theorem skipWS_serItemsTail (y : Json) (ys : JsonItems) (hwf : wfVal y = true)
    (t : List Char) :
    skipWS (serItemsChars (.cons y ys) ++ t) = serItemsChars (.cons y ys) ++ t := by
  obtain ⟨u, hu⟩ := serItemsChars_cons y ys
  rw [hu, List.append_assoc, skipWS_serVal y hwf, ← List.append_assoc]

theorem skipWS_serFieldsTail (k : String) (v : Json) (vs : JsonFields) (t : List Char) :
    skipWS (serFieldsChars (.cons k v vs) ++ t) = serFieldsChars (.cons k v vs) ++ t := by
  obtain ⟨u, hu⟩ := serFieldsChars_cons k v vs
  rw [hu, List.cons_append]
  exact skipWS_cons qC _ (by decide)

mutual

theorem parseVal_ser (j : Json) (hwf : wfVal j = true) (rest : List Char)
    (hrest : headNotP Char.isDigit rest) :
    ∀ f, needV j ≤ f → parseVal f (serVal j ++ rest) = some (j, rest) := by
  cases j with
  | str s =>
    intro f hf
    cases f with
    | zero => exact absurd hf (by simp [needV])
    | succ f =>
      have hq : qC ∉ s.data := wfStr_not_mem_q s.data (by simpa [wfVal] using hwf)
      rw [show serVal (.str s) ++ rest = qC :: (s.data ++ qC :: rest) by
        simp [serVal, serStr]]
      simp only [parseVal]
      rw [if_pos (by trivial), parseStrBody_roundtrip s.data rest hq]
      rfl
  | num q =>
    intro f hf
    cases f with
    | zero => exact absurd hf (by simp [needV])
    | succ f =>
      have hden : q.den = 1 ∧ 0 ≤ q.num := by
        simpa [wfVal, Bool.and_eq_true] using hwf
      obtain ⟨c, cs, hsc⟩ := List.exists_cons_of_ne_nil (serNum_ne_nil q hden.1 hden.2)
      have hcd : c.isDigit = true :=
        serNum_all_digits q c (hsc ▸ List.mem_cons_self c cs)
      have n1 : ¬(c = qC) := fun h => by rw [h] at hcd; exact absurd hcd (by decide)
      have n2 : ¬(c = lcbC) := fun h => by rw [h] at hcd; exact absurd hcd (by decide)
      have n3 : ¬(c = '[') := fun h => by rw [h] at hcd; exact absurd hcd (by decide)
      have n4 : ¬(c = 't') := fun h => by rw [h] at hcd; exact absurd hcd (by decide)
      have n5 : ¬(c = 'f') := fun h => by rw [h] at hcd; exact absurd hcd (by decide)
      have n6 : ¬(c = 'n') := fun h => by rw [h] at hcd; exact absurd hcd (by decide)
      rw [show serVal (.num q) ++ rest = c :: (cs ++ rest) by
        rw [show serVal (.num q) = serNum q from rfl, hsc]; simp]
      simp only [parseVal]
      rw [if_neg n1, if_neg n2, if_neg n3, if_neg n4, if_neg n5, if_neg n6, if_pos hcd]
      rw [show c :: (cs ++ rest) = serNum q ++ rest by rw [hsc]; simp]
      rw [parseNumGreedy_ser q hden.1 hden.2 rest hrest]
      rfl
  | bool b =>
    intro f hf
    cases f with
    | zero => exact absurd hf (by simp [needV])
    | succ f =>
      cases b with
      | true =>
        rw [show serVal (.bool true) ++ rest = 't' :: 'r' :: 'u' :: 'e' :: rest by
          simp [serVal]]
        exact parseVal_true f rest
      | false =>
        rw [show serVal (.bool false) ++ rest = 'f' :: 'a' :: 'l' :: 's' :: 'e' :: rest by
          simp [serVal]]
        exact parseVal_false f rest
  | null =>
    intro f hf
    cases f with
    | zero => exact absurd hf (by simp [needV])
    | succ f =>
      rw [show serVal .null ++ rest = 'n' :: 'u' :: 'l' :: 'l' :: rest by simp [serVal]]
      exact parseVal_null f rest
  | arr items =>
    intro f hf
    cases f with
    | zero => exact absurd hf (by simp [needV])
    | succ f =>
      rw [show serVal (.arr items) ++ rest = '[' :: (serItemsChars items ++ ']' :: rest) by
        simp [serVal]]
      simp only [parseVal]
      rw [if_neg (by decide : ¬(('[' : Char) = qC)),
          if_neg (by decide : ¬(('[' : Char) = lcbC)), if_pos (by trivial)]
      cases items with
      | nil =>
        simp only [serItemsChars, List.nil_append]
        rw [skipWS_cons ']' rest (by decide)]
        simp
      | cons x xs =>
        have hwx : wfVal x = true ∧ wfItems xs = true := by
          simpa [wfVal, wfItems, Bool.and_eq_true] using hwf
        obtain ⟨u, hu⟩ := serItemsChars_cons x xs
        obtain ⟨c, t, hsc, hg⟩ := serVal_shape x hwx.1
        have hinput : serItemsChars (.cons x xs) ++ ']' :: rest =
            c :: (t ++ (u ++ ']' :: rest)) := by
          rw [hu, hsc]; simp
        have hrec := parseItemsTail_ser x xs (by simpa [wfVal] using hwf) rest f
          (by simp [needV] at hf; omega)
        rw [hinput] at hrec
        rw [hinput, skipWS_cons c _ (goodStart_not_ws c hg)]
        simp [goodStart_ne_rsb c hg, hrec]
  | obj fields =>
    intro f hf
    cases f with
    | zero => exact absurd hf (by simp [needV])
    | succ f =>
      rw [show serVal (.obj fields) ++ rest = lcbC :: (serFieldsChars fields ++ rcbC :: rest) by
        simp [serVal]]
      simp only [parseVal]
      rw [if_neg (by decide : ¬(lcbC = qC)), if_pos (by trivial)]
      cases fields with
      | nil =>
        simp only [serFieldsChars, List.nil_append]
        rw [skipWS_cons rcbC rest (by decide)]
        simp
      | cons k v vs =>
        obtain ⟨u, hu⟩ := serFieldsChars_cons k v vs
        have hinput : serFieldsChars (.cons k v vs) ++ rcbC :: rest =
            qC :: (u ++ rcbC :: rest) := by rw [hu]; simp
        have hrec := parseFieldsTail_ser k v vs (by simpa [wfVal] using hwf) rest f
          (by simp [needV] at hf; omega)
        rw [hinput] at hrec
        rw [hinput, skipWS_cons qC _ (by decide)]
        simp [show ¬(qC = rcbC) from by decide, hrec]
termination_by sizeOf j

theorem parseItemsTail_ser (x : Json) (xs : JsonItems)
    (hwf : wfItems (.cons x xs) = true) (rest : List Char) :
    ∀ f, needI (.cons x xs) ≤ f →
      parseItemsTail f (serItemsChars (.cons x xs) ++ ']' :: rest) =
        some (.cons x xs, rest) := by
  intro f hf
  cases f with
  | zero => exact absurd hf (by simp [needI])
  | succ f =>
    have hw : wfVal x = true ∧ wfItems xs = true := by
      simpa [wfItems, Bool.and_eq_true] using hwf
    simp only [parseItemsTail]
    cases xs with
    | nil =>
      rw [show serItemsChars (.cons x .nil) ++ ']' :: rest = serVal x ++ ']' :: rest by
        simp [serItemsChars]]
      rw [parseVal_ser x hw.1 (']' :: rest) (headNotP_cons _ _ _ (by decide)) f
        (by simp [needI] at hf; omega)]
      simp [skipWS_cons ']' rest (by decide), show ¬((']' : Char) = ',') from by decide]
    | cons y ys =>
      have hwy : wfVal y = true ∧ wfItems ys = true := by
        simpa [wfItems, Bool.and_eq_true] using hw.2
      rw [show serItemsChars (.cons x (.cons y ys)) ++ ']' :: rest =
          serVal x ++ ',' :: (serItemsChars (.cons y ys) ++ ']' :: rest) by
        simp [serItemsChars]]
      rw [parseVal_ser x hw.1 _ (headNotP_cons _ _ _ (by decide)) f
        (by simp [needI] at hf; omega)]
      have hsk1 : skipWS (',' :: (serItemsChars (.cons y ys) ++ ']' :: rest)) =
          ',' :: (serItemsChars (.cons y ys) ++ ']' :: rest) :=
        skipWS_cons _ _ (by decide)
      have hsk2 := skipWS_serItemsTail y ys hwy.1 (']' :: rest)
      have hrec := parseItemsTail_ser y ys hw.2 rest f (by simp [needI] at hf ⊢; omega)
      simp [hsk1, hsk2, hrec]
termination_by sizeOf (JsonItems.cons x xs)

theorem parseFieldsTail_ser (k : String) (v : Json) (vs : JsonFields)
    (hwf : wfFields (.cons k v vs) = true) (rest : List Char) :
    ∀ f, needF (.cons k v vs) ≤ f →
      parseFieldsTail f (serFieldsChars (.cons k v vs) ++ rcbC :: rest) =
        some (.cons k v vs, rest) := by
  intro f hf
  cases f with
  | zero => exact absurd hf (by simp [needF])
  | succ f =>
    have hw : wfStr k.data = true ∧ wfVal v = true ∧ wfFields vs = true := by
      simpa [wfFields, Bool.and_eq_true, and_assoc] using hwf
    have hkq : qC ∉ k.data := wfStr_not_mem_q k.data hw.1
    have hk : String.mk k.data = k := rfl
    simp only [parseFieldsTail]
    cases vs with
    | nil =>
      rw [show serFieldsChars (.cons k v .nil) ++ rcbC :: rest =
          qC :: (k.data ++ qC :: (':' :: (serVal v ++ rcbC :: rest))) by
        simp [serFieldsChars, serStr]]
      have hp := parseStrBody_roundtrip k.data (':' :: (serVal v ++ rcbC :: rest)) hkq
      have hsk1 : skipWS (':' :: (serVal v ++ rcbC :: rest)) =
          ':' :: (serVal v ++ rcbC :: rest) := skipWS_cons _ _ (by decide)
      have hsv := skipWS_serVal v hw.2.1 (rcbC :: rest)
      have hpv := parseVal_ser v hw.2.1 (rcbC :: rest) (headNotP_cons _ _ _ (by decide)) f
        (by simp [needF] at hf; omega)
      have hsk2 : skipWS (rcbC :: rest) = rcbC :: rest := skipWS_cons _ _ (by decide)
      simp [hp, hsk1, hsv, hpv, hsk2, show ¬(rcbC = ',') from by decide, hk]
    | cons k2 w ws =>
      rw [show serFieldsChars (.cons k v (.cons k2 w ws)) ++ rcbC :: rest =
          qC :: (k.data ++ qC :: (':' :: (serVal v ++
            ',' :: (serFieldsChars (.cons k2 w ws) ++ rcbC :: rest)))) by
        simp [serFieldsChars, serStr]]
      have hp := parseStrBody_roundtrip k.data
        (':' :: (serVal v ++ ',' :: (serFieldsChars (.cons k2 w ws) ++ rcbC :: rest))) hkq
      have hsk1 : skipWS (':' :: (serVal v ++
          ',' :: (serFieldsChars (.cons k2 w ws) ++ rcbC :: rest))) =
          ':' :: (serVal v ++ ',' :: (serFieldsChars (.cons k2 w ws) ++ rcbC :: rest)) :=
        skipWS_cons _ _ (by decide)
      have hsv := skipWS_serVal v hw.2.1
        (',' :: (serFieldsChars (.cons k2 w ws) ++ rcbC :: rest))
      have hpv := parseVal_ser v hw.2.1
        (',' :: (serFieldsChars (.cons k2 w ws) ++ rcbC :: rest))
        (headNotP_cons _ _ _ (by decide)) f (by simp [needF] at hf; omega)
      have hsk2 : skipWS (',' :: (serFieldsChars (.cons k2 w ws) ++ rcbC :: rest)) =
          ',' :: (serFieldsChars (.cons k2 w ws) ++ rcbC :: rest) :=
        skipWS_cons _ _ (by decide)
      have hsk3 := skipWS_serFieldsTail k2 w ws (rcbC :: rest)
      have hrec := parseFieldsTail_ser k2 w ws hw.2.2 rest f (by simp [needF] at hf ⊢; omega)
      simp [hp, hsk1, hsv, hpv, hsk2, hsk3, hrec, hk]
termination_by sizeOf (JsonFields.cons k v vs)

end

mutual

theorem needV_le (j : Json) (hwf : wfVal j = true) : needV j ≤ 2 * (serVal j).length := by
  cases j with
  | str s =>
    simp [needV, serVal, serStr]
    omega
  | num q =>
    have hden : q.den = 1 ∧ 0 ≤ q.num := by
      simpa [wfVal, Bool.and_eq_true] using hwf
    have h := List.length_pos.mpr (serNum_ne_nil q hden.1 hden.2)
    simp only [needV, serVal]
    omega
  | bool b => cases b <;> simp [needV, serVal]
  | null => simp [needV, serVal]
  | arr items =>
    have h := needI_le items (by simpa [wfVal] using hwf)
    simp only [needV, serVal, List.length_append, List.length_cons]
    omega
  | obj fields =>
    have h := needF_le fields (by simpa [wfVal] using hwf)
    simp only [needV, serVal, List.length_append, List.length_cons]
    omega
termination_by sizeOf j

theorem needI_le (items : JsonItems) (hwf : wfItems items = true) :
    needI items ≤ 2 * (serItemsChars items).length + 2 := by
  cases items with
  | nil => simp [needI, serItemsChars]
  | cons x xs =>
    have hw : wfVal x = true ∧ wfItems xs = true := by
      simpa [wfItems, Bool.and_eq_true] using hwf
    have hx := needV_le x hw.1
    cases xs with
    | nil =>
      simp only [needI, serItemsChars]
      omega
    | cons y ys =>
      have ht := needI_le (.cons y ys) hw.2
      simp only [needI, serItemsChars, List.length_append, List.length_cons] at ht ⊢
      omega
termination_by sizeOf items

theorem needF_le (fields : JsonFields) (hwf : wfFields fields = true) :
    needF fields ≤ 2 * (serFieldsChars fields).length + 2 := by
  cases fields with
  | nil => simp [needF, serFieldsChars]
  | cons k v vs =>
    have hw : wfStr k.data = true ∧ wfVal v = true ∧ wfFields vs = true := by
      simpa [wfFields, Bool.and_eq_true, and_assoc] using hwf
    have hv := needV_le v hw.2.1
    cases vs with
    | nil =>
      simp only [needF, serFieldsChars, serStr, List.length_append, List.length_cons]
      omega
    | cons k2 w ws =>
      have ht := needF_le (.cons k2 w ws) hw.2.2
      simp only [needF, serFieldsChars, serStr, List.length_append, List.length_cons] at ht ⊢
      omega
termination_by sizeOf fields

end

theorem parseJson_ser (j : Json) (hwf : wfVal j = true) : parseJson (serVal j) = some j := by
  obtain ⟨c, t, hsc, hg⟩ := serVal_shape j hwf
  unfold parseJson
  have hsw : skipWS (serVal j) = serVal j := by
    rw [hsc]; exact skipWS_cons _ _ (goodStart_not_ws c hg)
  rw [hsw]
  have hp := parseVal_ser j hwf [] (headNotP_nil _) (2 * (serVal j).length + 2)
    (by have := needV_le j hwf; omega)
  rw [List.append_nil] at hp
  rw [hp]
  simp [skipWS]

theorem serStr_bt (k : String) (h : wfStr k.data = true) : btC ∉ serStr k := by
  intro hm
  simp [serStr] at hm
  rcases hm with hm | hm | hm
  · exact absurd hm (by decide)
  · exact wfStr_not_mem_bt k.data h hm
  · exact absurd hm (by decide)

mutual

theorem serVal_bt (j : Json) (hwf : wfVal j = true) : btC ∉ serVal j := by
  cases j with
  | str s => exact serStr_bt s (by simpa [wfVal] using hwf)
  | num q =>
    intro hm
    have := serNum_all_digits q btC hm
    exact absurd this (by decide)
  | bool b =>
    cases b with
    | true => decide
    | false => decide
  | null => decide
  | arr items =>
    intro hm
    rcases List.mem_cons.mp hm with hm | hm
    · exact absurd hm (by decide)
    · rcases List.mem_append.mp hm with hm | hm
      · exact serItems_bt items (by simpa [wfVal] using hwf) hm
      · simp at hm
        exact absurd hm (by decide)
  | obj fields =>
    intro hm
    rcases List.mem_cons.mp hm with hm | hm
    · exact absurd hm (by decide)
    · rcases List.mem_append.mp hm with hm | hm
      · exact serFields_bt fields (by simpa [wfVal] using hwf) hm
      · simp at hm
        exact absurd hm (by decide)
termination_by sizeOf j

theorem serItems_bt (items : JsonItems) (hwf : wfItems items = true) :
    btC ∉ serItemsChars items := by
  cases items with
  | nil => simp [serItemsChars]
  | cons x xs =>
    have hw : wfVal x = true ∧ wfItems xs = true := by
      simpa [wfItems, Bool.and_eq_true] using hwf
    cases xs with
    | nil =>
      simp only [serItemsChars]
      exact serVal_bt x hw.1
    | cons y ys =>
      intro hm
      simp only [serItemsChars] at hm
      rcases List.mem_append.mp hm with hm | hm
      · exact serVal_bt x hw.1 hm
      · rcases List.mem_cons.mp hm with hm | hm
        · exact absurd hm (by decide)
        · exact serItems_bt (.cons y ys) hw.2 hm
termination_by sizeOf items

theorem serFields_bt (fields : JsonFields) (hwf : wfFields fields = true) :
    btC ∉ serFieldsChars fields := by
  cases fields with
  | nil => simp [serFieldsChars]
  | cons k v vs =>
    have hw : wfStr k.data = true ∧ wfVal v = true ∧ wfFields vs = true := by
      simpa [wfFields, Bool.and_eq_true, and_assoc] using hwf
    cases vs with
    | nil =>
      intro hm
      simp only [serFieldsChars] at hm
      rcases List.mem_append.mp hm with hm | hm
      · exact serStr_bt k hw.1 hm
      · rcases List.mem_cons.mp hm with hm | hm
        · exact absurd hm (by decide)
        · exact serVal_bt v hw.2.1 hm
    | cons k2 w ws =>
      intro hm
      simp only [serFieldsChars] at hm
      rcases List.mem_append.mp hm with hm | hm
      · rcases List.mem_append.mp hm with hm | hm
        · exact serStr_bt k hw.1 hm
        · rcases List.mem_cons.mp hm with hm | hm
          · exact absurd hm (by decide)
          · exact serVal_bt v hw.2.1 hm
      · rcases List.mem_cons.mp hm with hm | hm
        · exact absurd hm (by decide)
        · exact serFields_bt (.cons k2 w ws) hw.2.2 hm
termination_by sizeOf fields

end

/-! ## Fence-marker split lemmas -/

theorem pySplitFJ_lead (t : List Char) :
    pySplit fenceJsonM (fenceJsonM ++ t) = [] :: pySplit fenceJsonM t :=
  pySplit_sepLead btC [btC, btC, 'j', 's', 'o', 'n'] t

theorem pySplitFM_lead (t : List Char) :
    pySplit fenceM (fenceM ++ t) = [] :: pySplit fenceM t :=
  pySplit_sepLead btC [btC, btC] t

theorem pySplitFJ_not_mem (s : List Char) (h : btC ∉ s) : pySplit fenceJsonM s = [s] :=
  pySplit_not_mem btC [btC, btC, 'j', 's', 'o', 'n'] s h

theorem pySplitFM_not_mem (s : List Char) (h : btC ∉ s) : pySplit fenceM s = [s] :=
  pySplit_not_mem btC [btC, btC] s h

theorem pySplitFJ_append_nomem (u t : List Char) (hu : btC ∉ u)
    (h : pySplit fenceJsonM t = [t]) : pySplit fenceJsonM (u ++ t) = [u ++ t] :=
  pySplit_append_nomem btC [btC, btC, 'j', 's', 'o', 'n'] u t hu h

theorem pySplitFJ_cons_nomatch (c : Char) (cs : List Char)
    (hpre : leadsWith fenceJsonM (c :: cs) = false)
    (h : pySplit fenceJsonM cs = [cs]) : pySplit fenceJsonM (c :: cs) = [c :: cs] :=
  pySplit_cons_nomatch btC [btC, btC, 'j', 's', 'o', 'n'] c cs hpre h

theorem pySplitFM_straddle (u t h : List Char) (t2 : List (List Char)) (hu : btC ∉ u)
    (hp : pySplit fenceM t = h :: t2) : pySplit fenceM (u ++ t) = (u ++ h) :: t2 :=
  pySplit_straddle btC [btC, btC] u t h t2 hu hp

theorem noBt_wrap (r : List Char) (hbt : btC ∉ r) : btC ∉ nlC :: (r ++ [nlC]) := by
  intro hm
  rcases List.mem_cons.mp hm with hm | hm
  · exact absurd hm (by decide)
  · rcases List.mem_append.mp hm with hm | hm
    · exact hbt hm
    · simp at hm
      exact absurd hm (by decide)

theorem pySplitFJ_noBt_tail (w : List Char) (hbt : btC ∉ w) :
    pySplit fenceJsonM (w ++ nlC :: fenceM) = [w ++ nlC :: fenceM] := by
  apply pySplitFJ_append_nomem w (nlC :: fenceM) hbt
  decide

theorem fence_split_mid (r : List Char) (hbt : btC ∉ r) :
    pySplit fenceM (nlC :: (r ++ nlC :: fenceM)) = [nlC :: (r ++ [nlC]), []] := by
  have hshape : nlC :: (r ++ nlC :: fenceM) = (nlC :: (r ++ [nlC])) ++ fenceM := by simp
  rw [hshape]
  have hp : pySplit fenceM fenceM = [] :: [[]] := by decide
  have := pySplitFM_straddle (nlC :: (r ++ [nlC])) fenceM [] [[]] (noBt_wrap r hbt) hp
  simpa using this

theorem labeled_tail_split (r : List Char) (hbt : btC ∉ r) :
    pySplit fenceJsonM (fenceJsonM ++ nlC :: (r ++ nlC :: fenceM)) =
      [[], nlC :: (r ++ nlC :: fenceM)] := by
  rw [pySplitFJ_lead]
  have h2 : pySplit fenceJsonM (r ++ nlC :: fenceM) = [r ++ nlC :: fenceM] :=
    pySplitFJ_noBt_tail r hbt
  have h3 : pySplit fenceJsonM (nlC :: (r ++ nlC :: fenceM)) =
      [nlC :: (r ++ nlC :: fenceM)] := by
    apply pySplitFJ_cons_nomatch _ _ _ h2
    simp [fenceJsonM, leadsWith, show (btC == nlC) = false from by decide]
  rw [h3]

theorem unlabeled_noFJ (r : List Char) (hbt : btC ∉ r) :
    pySplit fenceJsonM (fenceM ++ nlC :: (r ++ nlC :: fenceM)) =
      [fenceM ++ nlC :: (r ++ nlC :: fenceM)] := by
  have hb : (btC == nlC) = false := by decide
  have a2 : pySplit fenceJsonM (r ++ nlC :: fenceM) = [r ++ nlC :: fenceM] :=
    pySplitFJ_noBt_tail r hbt
  have a3 : pySplit fenceJsonM (nlC :: (r ++ nlC :: fenceM)) =
      [nlC :: (r ++ nlC :: fenceM)] :=
    pySplitFJ_cons_nomatch _ _ (by simp [fenceJsonM, leadsWith, hb]) a2
  have a4 : pySplit fenceJsonM (btC :: nlC :: (r ++ nlC :: fenceM)) =
      [btC :: nlC :: (r ++ nlC :: fenceM)] :=
    pySplitFJ_cons_nomatch _ _ (by simp [fenceJsonM, leadsWith, hb]) a3
  have a5 : pySplit fenceJsonM (btC :: btC :: nlC :: (r ++ nlC :: fenceM)) =
      [btC :: btC :: nlC :: (r ++ nlC :: fenceM)] :=
    pySplitFJ_cons_nomatch _ _ (by simp [fenceJsonM, leadsWith, hb]) a4
  have a6 : pySplit fenceJsonM (btC :: btC :: btC :: nlC :: (r ++ nlC :: fenceM)) =
      [btC :: btC :: btC :: nlC :: (r ++ nlC :: fenceM)] :=
    pySplitFJ_cons_nomatch _ _
      (by simp [fenceJsonM, leadsWith, hb, show ('j' == nlC) = false from by decide]) a5
  exact a6

theorem unlabeled_fm_split (r : List Char) (hbt : btC ∉ r) :
    pySplit fenceM (fenceM ++ nlC :: (r ++ nlC :: fenceM)) =
      [[], nlC :: (r ++ [nlC]), []] := by
  rw [pySplitFM_lead, fence_split_mid r hbt]

/-- C5: for every well-formed structured record, the extractor returns the
same parsed record for all three textual wrappings — bare serialized text,
a fenced block labeled as JSON, and an unlabeled fenced block — trying the
forms in that fixed order with the first match winning. -/
theorem claim_c5 (fields : JsonFields) (hwf : wfVal (Json.obj fields) = true) :
    generate_json (serVal (Json.obj fields)) = .ok (Json.obj fields) ∧
    generate_json (fenceJsonM ++ nlC :: (serVal (Json.obj fields) ++ nlC :: fenceM)) =
      .ok (Json.obj fields) ∧
    generate_json (fenceM ++ nlC :: (serVal (Json.obj fields) ++ nlC :: fenceM)) =
      .ok (Json.obj fields) := by
  have hbt : btC ∉ serVal (Json.obj fields) := serVal_bt _ hwf
  have hpj : parseJson (serVal (Json.obj fields)) = some (Json.obj fields) :=
    parseJson_ser _ hwf
  have hstrip : pyStrip (nlC :: (serVal (Json.obj fields) ++ [nlC])) =
      serVal (Json.obj fields) := by
    rw [show serVal (Json.obj fields) ++ [nlC] =
        (lcbC :: serFieldsChars fields ++ [rcbC]) ++ [nlC] from rfl]
    exact pyStrip_fence_block (serFieldsChars fields)
  refine ⟨?_, ?_, ?_⟩
  · unfold generate_json
    rw [hpj]
  · have hnone : parseJson (fenceJsonM ++ nlC ::
        (serVal (Json.obj fields) ++ nlC :: fenceM)) = none := by
      rw [show fenceJsonM ++ nlC :: (serVal (Json.obj fields) ++ nlC :: fenceM) =
          btC :: ([btC, btC, 'j', 's', 'o', 'n'] ++ nlC ::
            (serVal (Json.obj fields) ++ nlC :: fenceM)) from rfl]
      exact parseJson_bt _
    have hsplit := labeled_tail_split (serVal (Json.obj fields)) hbt
    have hsub : hasSubB fenceJsonM (fenceJsonM ++ nlC ::
        (serVal (Json.obj fields) ++ nlC :: fenceM)) = true := by
      unfold hasSubB
      rw [hsplit]
    have hmid := fence_split_mid (serVal (Json.obj fields)) hbt
    unfold generate_json
    rw [hnone, if_pos hsub, hsplit]
    simp only [pyGet, List.getD_cons_succ, List.getD_cons_zero]
    rw [hmid]
    simp only [List.getD_cons_zero]
    rw [hstrip, hpj]
  · have hnone : parseJson (fenceM ++ nlC ::
        (serVal (Json.obj fields) ++ nlC :: fenceM)) = none := by
      rw [show fenceM ++ nlC :: (serVal (Json.obj fields) ++ nlC :: fenceM) =
          btC :: ([btC, btC] ++ nlC ::
            (serVal (Json.obj fields) ++ nlC :: fenceM)) from rfl]
      exact parseJson_bt _
    have hnofj := unlabeled_noFJ (serVal (Json.obj fields)) hbt
    have hnosub : hasSubB fenceJsonM (fenceM ++ nlC ::
        (serVal (Json.obj fields) ++ nlC :: fenceM)) = false := by
      unfold hasSubB
      rw [hnofj]
    have hfm := unlabeled_fm_split (serVal (Json.obj fields)) hbt
    have hsub : hasSubB fenceM (fenceM ++ nlC ::
        (serVal (Json.obj fields) ++ nlC :: fenceM)) = true := by
      unfold hasSubB
      rw [hfm]
    have hinner : pySplit fenceM (nlC :: (serVal (Json.obj fields) ++ [nlC])) =
        [nlC :: (serVal (Json.obj fields) ++ [nlC])] :=
      pySplitFM_not_mem _ (noBt_wrap _ hbt)
    unfold generate_json
    rw [hnone, if_neg (by simp [hnosub]), if_pos hsub, hfm]
    simp only [pyGet, List.getD_cons_succ, List.getD_cons_zero]
    rw [hinner]
    simp only [List.getD_cons_zero]
    rw [hstrip, hpj]

theorem claim_c5_witness :
    wfVal (jObj [("status", Json.str "ok"), ("count", Json.num 3)]) = true ∧
    (generate_json (serVal (jObj [("status", Json.str "ok"), ("count", Json.num 3)])) =
      .ok (jObj [("status", Json.str "ok"), ("count", Json.num 3)]) ∧
    generate_json (fenceJsonM ++ nlC ::
        (serVal (jObj [("status", Json.str "ok"), ("count", Json.num 3)]) ++
          nlC :: fenceM)) =
      .ok (jObj [("status", Json.str "ok"), ("count", Json.num 3)]) ∧
    generate_json (fenceM ++ nlC ::
        (serVal (jObj [("status", Json.str "ok"), ("count", Json.num 3)]) ++
          nlC :: fenceM)) =
      .ok (jObj [("status", Json.str "ok"), ("count", Json.num 3)])) :=
  ⟨by decide, claim_c5 (jFields [("status", Json.str "ok"), ("count", Json.num 3)])
    (by decide)⟩

/-- C6 counterexample: a labeled fenced block whose interior is not
parseable makes the extractor fail with the bare decode error from the
block parse — not with the error that carries the 200-character input
preview; so the claim fails for this input, from which no strategy can
recover a record. -/
theorem claim_c6_cex :
    generate_json badFencedResponse = .error ExtractError.decodeError ∧
    (Except.error ExtractError.decodeError : Except ExtractError Json) ≠
      .error (.noStructure (badFencedResponse.take 200)) := by
  constructor
  · decide
  · decide

/-- C6 (amended): when no structured record can be recovered AND the input
contains no fenced-block marker at all, the extractor fails with the
error carrying the input truncated to 200 characters — in particular on
"not structured at all"; but when a fence marker is present and its
interior fails to parse, the failure is the bare block-parse error
without the preview. -/
theorem claim_c6 (s : List Char) (hp : parseJson s = none)
    (hfj : hasSubB fenceJsonM s = false) (hfm : hasSubB fenceM s = false) :
    generate_json s = .error (.noStructure (s.take 200)) := by
  unfold generate_json
  rw [hp, if_neg (by simp [hfj]), if_neg (by simp [hfm])]

theorem claim_c6_witness :
    parseJson ("not structured at all".toList) = none ∧
    hasSubB fenceJsonM ("not structured at all".toList) = false ∧
    hasSubB fenceM ("not structured at all".toList) = false ∧
    generate_json ("not structured at all".toList) =
      .error (.noStructure (("not structured at all".toList).take 200)) :=
  ⟨by decide, by decide, by decide,
   claim_c6 ("not structured at all".toList) (by decide) (by decide) (by decide)⟩
